import Mathlib

/-!
# Verification of `populate-trade-fileevents.py`

A shallow embedding, in Lean 4, of the core of the CRP historical file
loader: the filename classifier (`get_datafiletype_id_from_filename`),
the event-store gateway (`insert_fileevent`) and the event publisher
(`populate_fileevents`), together with the orchestrating `main`.

Modelling conventions:
* Python exceptions are modelled with `Except PyExc`; a `try/except`
  block is a `match` on the `Except` value.
* The database, the audit log, the application log, the console progress
  line and the SQL statements executed are made explicit: the store is a
  list of rows (represented by their identity keys) threaded through the
  functions, and every observable action is appended to an event trace.
* The behaviour of the external world (whether `pyodbc.connect` raises,
  what the insert-template file contains) is a parameter (`StoreEnv`),
  one per record position, so that store failures can be stated per record.
* `datetime.now()` is modelled by an opaque `pTimestampNow` token; the
  code never branches on its value.
-/

/-- Python exception kinds that the embedded code can raise. -/
inductive PyExc
  | pyodbcError    -- pyodbc.Error and friends: connection / query failures
  | valueError     -- date.fromisoformat on a malformed date string
  | ioError        -- OSError: opening the SQL template file fails
  | indexError     -- re.Match.group(n) with n out of range ("no such group")
  | typeError      -- e.g. re.match(None, s), os.path.join(None, s)
  | keyError       -- dict[k] with k absent
  | attributeError -- calling .get on a non-dict config section
  deriving Repr, DecidableEq

/-! ## Filename classifier — `get_datafiletype_id_from_filename` -/

/-- The result of a successful `re.match`: the list of capture groups.
`groups[i]` is Python's `match.group(i+1)`; a group that did not
participate in the match is `none` (Python `None`).  Group 0 (the whole
match) is not carried: the source only ever reads `match.group(2)`. -/
structure RegexMatch where
  groups : List (Option String)
  deriving Repr, DecidableEq

/-- Python `match.group(i)` for `i ≥ 1`: raises IndexError ("no such
group") when the pattern has fewer than `i` capture groups. -/
def RegexMatch.group (m : RegexMatch) (i : Nat) : Except PyExc (Option String) :=
  if h : i - 1 < m.groups.length then .ok (m.groups.get ⟨i - 1, h⟩)
  else .error .indexError

/-- A regex engine: `re.match(pattern, string)`, returning `none` when the
pattern does not match at the start of the string.  The classifier is
parameterised by the engine; a concrete engine for the configured
pattern is `re_match_trade` below. -/
def RegexEngine : Type := String → String → Option RegexMatch

/-- The fixed code → identifier table from the source:
`{'IRS': 1, 'OIS': 2, 'BS': 3}`. -/
def type_mapping : List (String × Nat) := [("IRS", 1), ("OIS", 2), ("BS", 3)]

/-- Python `type_mapping.get(file_type)`: `file_type` may be `None`
(a non-participating group), which is not a key of the dict. -/
def type_mapping_get : Option String → Option Nat
  | none => none
  | some k => (type_mapping.find? (fun p => p.1 == k)).map (·.2)

/-- Embedding of `get_datafiletype_id_from_filename(filename,
filename_pattern)`.  `re.match` is the supplied engine; on a match the
source reads `match.group(2)` (which raises when the pattern exposes
fewer than two groups) and looks the code up in `type_mapping`; on no
match the function falls through and returns `None`. -/
def get_datafiletype_id_from_filename (re_match : RegexEngine)
    (filename filename_pattern : String) : Except PyExc (Option Nat) :=
  match re_match filename_pattern filename with
  | some m =>
    match m.group 2 with
    | .error e => .error e
    | .ok file_type => .ok (type_mapping_get file_type)
  | none => .ok none

/-! ### A concrete engine for the configured pattern
`^(\w+)_(IRS|OIS|BS)_.*$`, with Python semantics: `\w+` is greedy and
backtracks from the longest word-character prefix; the alternatives are
tried left to right; `.` does not match a newline and `$` also matches
just before a trailing newline. -/

/-- Python `\w` (ASCII view): letters, digits and underscore. -/
def isWordChar (c : Char) : Bool := c.isAlphanum || c == '_'

def noNewline (l : List Char) : Bool := l.all (fun c => c ≠ '\n')

/-- Does `.*$` accept the characters `l`? -/
def dotStarEnd (l : List Char) : Bool :=
  noNewline l ||
    (match l.reverse with
     | '\n' :: rest => noNewline rest
     | _ => false)

/-- Match `(IRS|OIS|BS)_` at the head of `l`; alternatives left to right. -/
def tryTypeUnderscore : List Char → Option (String × List Char)
  | 'I' :: 'R' :: 'S' :: '_' :: rest => some ("IRS", rest)
  | 'O' :: 'I' :: 'S' :: '_' :: rest => some ("OIS", rest)
  | 'B' :: 'S' :: '_' :: rest => some ("BS", rest)
  | _ => none

/-- Backtracking search for the split `(\w+)_(IRS|OIS|BS)_.*$` of `s`:
group 1 of length `k`, then `k-1`, … down to `1` (greedy `\w+`).
Returns `(group 1, group 2)` of the match Python finds. -/
def tradeSplit (s : List Char) : Nat → Option (String × String)
  | 0 => none
  | k + 1 =>
    if ((s.take (k + 1)).all isWordChar) && (s.get? (k + 1) == some '_') then
      match tryTypeUnderscore (s.drop (k + 2)) with
      | some (t, rest) =>
        if dotStarEnd rest then some ((s.take (k + 1)).asString, t)
        else tradeSplit s k
      | none => tradeSplit s k
    else tradeSplit s k

/-- The configured pattern from the spec's scenario. -/
def trade_pattern : String := "^(\\w+)_(IRS|OIS|BS)_.*$"

/-- A regex engine defined for the configured pattern (the only pattern
this deployment configures); other patterns are outside the model. -/
def re_match_trade : RegexEngine := fun pattern s =>
  if pattern = trade_pattern then
    match tradeSplit s.toList s.toList.length with
    | some (g1, g2) => some ⟨[some g1, some g2]⟩
    | none => none
  else none

/-! ## Event-store gateway — `insert_fileevent` -/

def digitVal (c : Char) : Nat := c.toNat - 48

def isLeapYear (y : Nat) : Bool := (y % 4 == 0 && y % 100 != 0) || (y % 400 == 0)

def daysInMonth (y m : Nat) : Nat :=
  if m == 2 then (if isLeapYear y then 29 else 28)
  else if m == 4 || m == 6 || m == 9 || m == 11 then 30
  else 31

/-- A calendar date, the result of `date.fromisoformat`. -/
structure PyDate where
  year : Nat
  month : Nat
  day : Nat
  deriving Repr, DecidableEq

/-- Python `date.fromisoformat(s)`: parses `YYYY-MM-DD` (the format the rest of
the system produces), validating month, day and year range; `none`
models the ValueError raised on a malformed string. -/
def date_fromisoformat (s : String) : Option PyDate :=
  match s.toList with
  | [y1, y2, y3, y4, '-', m1, m2, '-', d1, d2] =>
    if [y1, y2, y3, y4, m1, m2, d1, d2].all Char.isDigit then
      let y := ((digitVal y1 * 10 + digitVal y2) * 10 + digitVal y3) * 10 + digitVal y4
      let m := digitVal m1 * 10 + digitVal m2
      let d := digitVal d1 * 10 + digitVal d2
      if 1 ≤ y && 1 ≤ m && m ≤ 12 && 1 ≤ d && d ≤ daysInMonth y m then
        some ⟨y, m, d⟩
      else none
    else none
  | _ => none

/-- The identity key of a `FileEvent` row: the four columns of the
dedup check `WHERE FileName = ? AND FileLocation = ? AND MarketDate = ?
AND DataFileTypeId = ?`.  The store is modelled as the list of its rows'
identity keys; the full 14-column row appears in the `insertExec` event. -/
structure IdentityKey where
  FileName : String
  FileLocation : String
  MarketDate : PyDate
  DataFileTypeId : Nat
  deriving Repr, DecidableEq

/-- One positional parameter of the insert statement. -/
inductive SqlParam
  | pDate (d : PyDate)
  | pInt (n : Nat)
  | pStr (s : String)
  | pTimestampNow        -- datetime.now()
  | pBool (b : Bool)
  deriving Repr, DecidableEq

/-- The observable actions of the gateway and the publisher, in the
order they are performed. -/
inductive Event
  | connectAttempt (conn_str : String)            -- pyodbc.connect(conn_str)
  | checkQuery (key : IdentityKey)                -- the SELECT COUNT(*) dedup check
  | templateRead (path : String)                  -- open(sql_template_file_path).read()
  | insertExec (params : List SqlParam)           -- cursor.execute(sql_query, (...))
  | commit                                        -- conn.commit()
  | auditLine (line : String)                     -- audit_logger.info(...)
  | appWarning (line : String)                    -- app_logger.warning(...)
  | progress (processed total remaining failed : Nat)  -- the console status line
  deriving Repr, DecidableEq

/-- The external world, as seen by one `insert_fileevent` call: whether
`pyodbc.connect` raises, the content of the insert-template file
(`none` models the open failing), and whether the insert statement's
`cursor.execute` / `conn.commit` raises once reached — the store-side
failure the spec calls "malformed template" or "constraint violation on
insert", which strikes after the template file was already read. -/
structure StoreEnv where
  connect_fails : Bool
  template : Option String
  exec_fails : Bool
  deriving Repr, DecidableEq

/-- The connection string built at the top of `insert_fileevent`. -/
def conn_str_of (server database : String) : String :=
  "DRIVER=\x7bODBC Driver 17 for SQL Server\x7d;SERVER=" ++ server ++
    ";DATABASE=" ++ database ++ ";Trusted_Connection=yes;Encrypt=no;"

/-- The tuple of 14 positional parameters passed to `cursor.execute`
for the insert, in source order. -/
def insertParams (mdate : PyDate) (data_file_type_id : Nat)
    (file_name file_location : String) : List SqlParam :=
  [ .pDate mdate,
    .pInt data_file_type_id,
    .pStr file_name,
    .pStr file_location,
    .pStr "Monitor",
    .pInt 0,
    .pStr "Completed",
    .pStr "DLSTAP202",
    .pTimestampNow,
    .pTimestampNow,
    .pStr "CRP FileEvent populator",
    .pStr "CRP FileEvent populator",
    .pStr "",
    .pBool true ]

/-- What one `insert_fileevent` call produced: its return value (or the
exception it raised), the store contents afterwards, and the trace of
observable actions it performed. -/
structure InsertResult where
  ret : Except PyExc Bool
  db : List IdentityKey
  events : List Event
  deriving Repr

/-- Embedding of `insert_fileevent(server, database,
sql_template_file_path, data_file_type_id, market_date, file_name,
file_location)` acting on store contents `db` under environment `env`.

Source order: build `conn_str`; parse `market_date`
(`date.fromisoformat`, may raise ValueError); connect (may raise);
run the COUNT(*) dedup check; if a row exists, log the audit line and
return `False` with no insert and no `conn.commit()`; otherwise read
the template file (may raise), execute the insert with the 14
positional parameters and commit (either may raise, after the template
read), log the audit line and return `True`.
(`with pyodbc.connect(...)`'s context-manager exit is not modelled
beyond this: the only explicit commit is the one in the source.) -/
def insert_fileevent (env : StoreEnv) (db : List IdentityKey)
    (server database sql_template_file_path : String)
    (data_file_type_id : Nat) (market_date file_name file_location : String) :
    InsertResult :=
  let cs := conn_str_of server database
  match date_fromisoformat market_date with
  | none => ⟨.error .valueError, db, []⟩
  | some mdate =>
    if env.connect_fails then ⟨.error .pyodbcError, db, [.connectAttempt cs]⟩
    else
      let key : IdentityKey := ⟨file_name, file_location, mdate, data_file_type_id⟩
      let count := (db.filter (fun r => r == key)).length
      if 0 < count then
        ⟨.ok false, db,
          [.connectAttempt cs, .checkQuery key,
           .auditLine (file_name ++ "," ++ file_location ++ ",Skipped")]⟩
      else
        match env.template with
        | none => ⟨.error .ioError, db, [.connectAttempt cs, .checkQuery key]⟩
        | some _sql_query =>
          if env.exec_fails then
            -- cursor.execute(sql_query, ...) or conn.commit() raises: the
            -- template was already read; nothing is durably inserted (no
            -- commit) and no audit line is written.  `insertExec` records
            -- only a successfully executed insert statement.
            ⟨.error .pyodbcError, db,
              [.connectAttempt cs, .checkQuery key,
               .templateRead sql_template_file_path]⟩
          else
            ⟨.ok true, key :: db,
              [.connectAttempt cs, .checkQuery key,
               .templateRead sql_template_file_path,
               .insertExec (insertParams mdate data_file_type_id file_name file_location),
               .commit,
               .auditLine (file_name ++ "," ++ file_location ++ ",Inserted")]⟩

/-! ## Event publisher — `populate_fileevents` -/

/-- One entry of `file_list`: the 4-tuple `(src_full_path, filename,
formatted_date, _)` the loop destructures; the fourth component is
carried but never read (`_` in the source). -/
structure FileRecEntry where
  src_full_path : String
  filename : String
  formatted_date : String
  extra : String
  deriving Repr, DecidableEq

/-- The publisher's run state: the store contents, the three counters,
and the accumulated trace of observable actions. -/
structure RunState where
  db : List IdentityKey
  inserted : Nat
  skipped : Nat
  failed : Nat
  events : List Event
  deriving Repr

/-- One iteration of the `for src_full_path, filename, formatted_date, _
in file_list` loop, for the record at position `idx`.

* `filename_pattern` is `Option String` because the per-type config key
  may be absent, in which case `re.match(None, filename)` raises a
  TypeError — outside the `try`, so it aborts the run.
* A classifier IndexError is likewise raised outside the `try`.
* An unknown file type logs a warning and `continue`s — skipping the
  progress line at the bottom of the loop body.
* Otherwise `insert_fileevent` runs inside `try/except Exception`:
  `True` increments `inserted`, `False` increments `skipped`, any
  exception increments `failed`; then the progress line is printed. -/
def populate_step (re_match : RegexEngine) (env : Nat → StoreEnv)
    (sql_server sql_db sql_template_file_path : String)
    (filename_pattern : Option String) (total : Nat)
    (idx : Nat) (st : RunState) (rec : FileRecEntry) : Except PyExc RunState :=
  match filename_pattern with
  | none => .error .typeError
  | some pat =>
    match get_datafiletype_id_from_filename re_match rec.filename pat with
    | .error e => .error e
    | .ok none =>
      .ok { st with
            events := st.events ++ [.appWarning ("Unknown file type for: " ++ rec.filename)] }
    | .ok (some data_file_type_id) =>
      let r := insert_fileevent (env idx) st.db sql_server sql_db
        sql_template_file_path data_file_type_id
        rec.formatted_date rec.filename rec.src_full_path
      let counters : Nat × Nat × Nat :=
        match r.ret with
        | .ok true => (st.inserted + 1, st.skipped, st.failed)
        | .ok false => (st.inserted, st.skipped + 1, st.failed)
        | .error _ => (st.inserted, st.skipped, st.failed + 1)
      let processed := counters.1 + counters.2.1 + counters.2.2
      .ok { db := r.db
            inserted := counters.1
            skipped := counters.2.1
            failed := counters.2.2
            events := st.events ++ r.events ++
              [.progress processed total (total - processed) counters.2.2] }

/-- The publisher loop over the remaining records, `idx` being the
position of the first of them in `file_list`.  The result pairs the run
state reached with the exception that aborted the loop, if any: an
uncaught exception discards the local state but not the side effects
already performed, so the trace accumulated so far is kept. -/
def populate_loop (re_match : RegexEngine) (env : Nat → StoreEnv)
    (sql_server sql_db sql_template_file_path : String)
    (filename_pattern : Option String) (total : Nat) :
    Nat → RunState → List FileRecEntry → RunState × Option PyExc
  | _, st, [] => (st, none)
  | idx, st, rec :: rest =>
    match populate_step re_match env sql_server sql_db sql_template_file_path
        filename_pattern total idx st rec with
    | .error e => (st, some e)
    | .ok st' =>
      populate_loop re_match env sql_server sql_db sql_template_file_path
        filename_pattern total (idx + 1) st' rest

/-- Embedding of `populate_fileevents(file_list, sql_server, sql_db,
sql_template_file_path, filename_pattern)` run against initial store
contents `db0`: the final run state, and the exception that propagated
out of the loop if one did (counters start at zero,
`total = len(file_list)`). -/
def populate_fileevents (re_match : RegexEngine) (env : Nat → StoreEnv)
    (db0 : List IdentityKey) (file_list : List FileRecEntry)
    (sql_server sql_db sql_template_file_path : String)
    (filename_pattern : Option String) : RunState × Option PyExc
  :=
  populate_loop re_match env sql_server sql_db sql_template_file_path
    filename_pattern file_list.length 0 ⟨db0, 0, 0, 0, []⟩ file_list

/-- The value the Python function returns — `return failed` — or the
exception it raised. -/
def populate_fileevents_ret (re_match : RegexEngine) (env : Nat → StoreEnv)
    (db0 : List IdentityKey) (file_list : List FileRecEntry)
    (sql_server sql_db sql_template_file_path : String)
    (filename_pattern : Option String) : Except PyExc Nat :=
  match populate_fileevents re_match env db0 file_list sql_server sql_db
    sql_template_file_path filename_pattern with
  | (st, none) => .ok st.failed
  | (_, some e) => .error e

/-! ## Run setup — `main` -/

/-- A YAML value as loaded by `yaml.safe_load`: the configuration is a
mapping of strings to values. -/
inductive YamlVal
  | yStr (s : String)
  | yBool (b : Bool)
  | yMap (m : List (String × YamlVal))
  deriving Repr

/-- Python `m.get(k)` on a YAML mapping. -/
def cfgGet (m : List (String × YamlVal)) (k : String) : Option YamlVal :=
  (m.find? (fun p => p.1 == k)).map (·.2)

/-- Python truthiness of a YAML value (`if not file_location`,
`if use_cached`). -/
def yTruthy : YamlVal → Bool
  | .yStr s => s ≠ ""
  | .yBool b => b
  | .yMap m => !m.isEmpty

/-- Python `str(v)` as used when a config value is interpolated into a
string (server, database, paths). -/
def yamlStr : YamlVal → String
  | .yStr s => s
  | .yBool b => if b then "True" else "False"
  | .yMap _ => "..."

/-- Python `config.get(data_file_type, ...)` followed by attribute access:
a present non-mapping section makes the subsequent `.get` raise. -/
def sectionOf : Option YamlVal → Except PyExc (List (String × YamlVal))
  | none => .ok []
  | some (.yMap m) => .ok m
  | some _ => .error .attributeError

/-- Modelled from the spec: `caching.FileCache` — its module
(`caching.py`) is not under `src/`.  Per §4.2 the cache offers
`build` (walks the source location: filesystem I/O), `save` (writes the
cache artifact: filesystem I/O) and `load` (reads a prior artifact,
returning whether it succeeded, a soft failure otherwise).  The
environment records what `load` would yield and what `build` would
discover; the observable I/O of each operation is traced by `main`. -/
structure FileCacheEnv where
  load_result : Option (List FileRecEntry)  -- some l: load() succeeds with file_list l
  built_list : List FileRecEntry            -- file_list after build()

/-- The observable actions of a run of `main`, in order.  `app_logger`
info lines (pure observability; no claim mentions them) are not traced;
warnings, audit lines and the store actions are, via `mStore`. -/
inductive MainEvent
  | mLogInit        -- init_logging: opens the app/audit log files (I/O)
  | mConfigRead     -- load_config: opens and reads the YAML file (I/O)
  | mCacheLoad      -- cache.load(): reads the cache artifact (I/O)
  | mCacheBuild     -- cache.build(): walks the source tree (I/O)
  | mCacheSave      -- cache.save(): writes the cache artifact (I/O)
  | mStore (e : Event)
  deriving Repr, DecidableEq

/-- The outcome of `main`: the exception that propagated out, if any,
and the trace of observable actions up to that point. -/
structure MainResult where
  ret : Except PyExc Unit
  events : List MainEvent
  deriving Repr

/-- Embedding of `main(dataFileType_arg)` (named `py_main`: Lean reserves `main`), given the loaded
configuration mapping, the cache environment, the per-record store
environment, the regex engine and the initial store contents.

Source order: `init_logging`; `load_config`; resolve the per-type
section; `SOURCE_LOCATION` (per-type, falling back to the global key —
`config[...]`, KeyError when absent); `AUDIT_FILE_FOLDER` (defaulted);
`FILENAME_PATTERN` (per-type, may be `None`); `USE_CACHED`
(`config[...]`); `CACHE_FILE_FOLDER` (`config.get`, a `None` makes
`os.path.join` raise TypeError); cache load-or-build; then
`SQL_SERVER`, `SQL_DATABASE`, `SQL_INSERT_TEMPLATE_FILE_PATH`
(`config[...]` each); finally `populate_fileevents`. -/
def py_main (config : List (String × YamlVal)) (dataFileType_arg : String)
    (cacheEnv : FileCacheEnv) (store : Nat → StoreEnv)
    (re_match : RegexEngine) (db0 : List IdentityKey) : MainResult :=
  let evs0 : List MainEvent := [.mLogInit, .mConfigRead]
  match sectionOf (cfgGet config dataFileType_arg) with
  | .error e => ⟨.error e, evs0⟩
  | .ok dft_config =>
    let floc0 := cfgGet dft_config "SOURCE_LOCATION"
    let floc : Except PyExc YamlVal :=
      if (floc0.map yTruthy).getD false then .ok (floc0.getD (.yStr ""))
      else
        match cfgGet config "SOURCE_LOCATION" with
        | none => .error .keyError
        | some v => .ok v
    match floc with
    | .error e => ⟨.error e, evs0⟩
    | .ok _file_location =>
      let _audit_file_folder := (cfgGet config "AUDIT_FILE_FOLDER").getD (.yStr "audit")
      let filename_pattern := (cfgGet dft_config "FILENAME_PATTERN").map yamlStr
      match cfgGet config "USE_CACHED" with
      | none => ⟨.error .keyError, evs0⟩
      | some ucVal =>
        let use_cached := yTruthy ucVal
        match cfgGet config "CACHE_FILE_FOLDER" with
        | none => ⟨.error .typeError, evs0⟩  -- os.path.join(None, ...)
        | some _cache_file_folder =>
          let cacheRun : List MainEvent × List FileRecEntry :=
            if use_cached then
              match cacheEnv.load_result with
              | some l => ([.mCacheLoad], l)
              | none => ([.mCacheLoad, .mCacheBuild, .mCacheSave], cacheEnv.built_list)
            else ([.mCacheBuild, .mCacheSave], cacheEnv.built_list)
          let evs1 := evs0 ++ cacheRun.1
          let file_list := cacheRun.2
          match cfgGet config "SQL_SERVER" with
          | none => ⟨.error .keyError, evs1⟩
          | some server =>
            match cfgGet config "SQL_DATABASE" with
            | none => ⟨.error .keyError, evs1⟩
            | some database =>
              match cfgGet config "SQL_INSERT_TEMPLATE_FILE_PATH" with
              | none => ⟨.error .keyError, evs1⟩
              | some tmplPath =>
                match populate_fileevents re_match store db0 file_list
                    (yamlStr server) (yamlStr database) (yamlStr tmplPath)
                    filename_pattern with
                | (st, some e) => ⟨.error e, evs1 ++ st.events.map .mStore⟩
                | (st, none) => ⟨.ok (), evs1 ++ st.events.map .mStore⟩

/-! ## Helper predicates over traces and records -/

/-- Does the record's filename classify to a known type under pattern `p`? -/
def classifiesB (rm : RegexEngine) (p : String) (rec : FileRecEntry) : Bool :=
  match get_datafiletype_id_from_filename rm rec.filename p with
  | .ok (some _) => true
  | _ => false

/-- Does the record's `formatted_date` parse as a date? -/
def parsesB (rec : FileRecEntry) : Bool :=
  (date_fromisoformat rec.formatted_date).isSome

/-- A store environment under which `insert_fileevent` cannot raise:
the connection succeeds, the template file is readable, and the insert
execute/commit succeeds. -/
def envOkB (e : StoreEnv) : Bool :=
  !e.connect_fails && e.template.isSome && !e.exec_fails

def isAuditLineB : Event → Bool
  | .auditLine _ => true
  | _ => false

def isProgressB : Event → Bool
  | .progress _ _ _ _ => true
  | _ => false

def isTemplateReadB : Event → Bool
  | .templateRead _ => true
  | _ => false

/-- The dedup-check keys occurring in a trace, in order. -/
def checkKeys (evs : List Event) : List IdentityKey :=
  evs.filterMap (fun e => match e with | .checkQuery k => some k | _ => none)

/-- The identity key a record would be stored under (its classified
type and parsed date), when both are defined. -/
def recKey (rm : RegexEngine) (p : String) (rec : FileRecEntry) :
    Option IdentityKey :=
  match get_datafiletype_id_from_filename rm rec.filename p,
        date_fromisoformat rec.formatted_date with
  | .ok (some id), some d => some ⟨rec.filename, rec.src_full_path, d, id⟩
  | _, _ => none

/-- The audit line `insert_fileevent` writes when it skips a record. -/
def auditSkipped (rec : FileRecEntry) : Event :=
  .auditLine (rec.filename ++ "," ++ rec.src_full_path ++ ",Skipped")

/-- The audit line `insert_fileevent` writes when it inserts a record. -/
def auditInserted (rec : FileRecEntry) : Event :=
  .auditLine (rec.filename ++ "," ++ rec.src_full_path ++ ",Inserted")

/-- Is the event an action against the event store (connection,
existence check, insert, commit)? -/
def isStoreActionB : MainEvent → Bool
  | .mStore (.connectAttempt _) => true
  | .mStore (.checkQuery _) => true
  | .mStore (.insertExec _) => true
  | .mStore .commit => true
  | _ => false

/-- The configuration keys read with `config[...]` / used unconditionally,
whose absence is fatal. -/
def requiredGlobalKeys : List String :=
  ["USE_CACHED", "CACHE_FILE_FOLDER", "SQL_SERVER", "SQL_DATABASE",
   "SQL_INSERT_TEMPLATE_FILE_PATH"]

/-! ## Claim C2 — classifier mapping -/

/-- Claim C2. For every filename that matches the configured pattern with
the second capture group a known code, the classifier returns the mapped
identifier from the fixed three-code table IRS→1, OIS→2, BS→3; an
unknown code, a non-participating group, or no match at all yields
`None`.  In particular, under the pattern `^(\w+)_(IRS|OIS|BS)_.*$`,
`TRADE_IRS_20240101.csv` classifies to 1 and `TRADE_XYZ_20240101.csv`
to `None`. -/
theorem c2_classifier_mapping (rm : RegexEngine) (f p : String) :
    (∀ m, rm p f = some m →
      (m.group 2 = .ok (some "IRS") →
        get_datafiletype_id_from_filename rm f p = .ok (some 1)) ∧
      (m.group 2 = .ok (some "OIS") →
        get_datafiletype_id_from_filename rm f p = .ok (some 2)) ∧
      (m.group 2 = .ok (some "BS") →
        get_datafiletype_id_from_filename rm f p = .ok (some 3)) ∧
      (∀ c, m.group 2 = .ok (some c) → c ≠ "IRS" → c ≠ "OIS" → c ≠ "BS" →
        get_datafiletype_id_from_filename rm f p = .ok none) ∧
      (m.group 2 = .ok none →
        get_datafiletype_id_from_filename rm f p = .ok none)) ∧
    (rm p f = none → get_datafiletype_id_from_filename rm f p = .ok none) ∧
    get_datafiletype_id_from_filename re_match_trade
      "TRADE_IRS_20240101.csv" trade_pattern = .ok (some 1) ∧
    get_datafiletype_id_from_filename re_match_trade
      "TRADE_XYZ_20240101.csv" trade_pattern = .ok none := by
  refine ⟨fun m hm => ?_, fun hm => ?_, by rfl, by rfl⟩
  · have base : get_datafiletype_id_from_filename rm f p
        = match m.group 2 with
          | .error e => .error e
          | .ok file_type => .ok (type_mapping_get file_type) := by
      unfold get_datafiletype_id_from_filename
      rw [hm]
    refine ⟨fun hg => ?_, fun hg => ?_, fun hg => ?_, fun c hg h1 h2 h3 => ?_,
      fun hg => ?_⟩
    · rw [base, hg]; rfl
    · rw [base, hg]; rfl
    · rw [base, hg]; rfl
    · rw [base, hg]
      show Except.ok (type_mapping_get (some c)) = Except.ok none
      have e1 : (("IRS" : String) == c) = false := beq_eq_false_iff_ne.mpr (Ne.symm h1)
      have e2 : (("OIS" : String) == c) = false := beq_eq_false_iff_ne.mpr (Ne.symm h2)
      have e3 : (("BS" : String) == c) = false := beq_eq_false_iff_ne.mpr (Ne.symm h3)
      simp only [type_mapping_get, type_mapping, List.find?, e1, e2, e3]
      rfl
    · rw [base, hg]; rfl
  · unfold get_datafiletype_id_from_filename
    rw [hm]

/-- Witness for C2: the general clauses applied at the scenario inputs. -/
theorem c2_classifier_mapping_witness :
    get_datafiletype_id_from_filename re_match_trade
      "TRADE_IRS_20240101.csv" trade_pattern = .ok (some 1) ∧
    get_datafiletype_id_from_filename re_match_trade
      "TRADE_XYZ_20240101.csv" trade_pattern = .ok none :=
  ⟨((c2_classifier_mapping re_match_trade "TRADE_IRS_20240101.csv"
        trade_pattern).1 ⟨[some "TRADE", some "IRS"]⟩ (by rfl)).1 (by rfl),
   (c2_classifier_mapping re_match_trade "TRADE_XYZ_20240101.csv"
        trade_pattern).2.1 (by rfl)⟩

/-! ## Claim C7 — classifier totality -/

/-- The regex engine's behaviour at the concrete inputs
`re.match("^TRADE$", "TRADE")`: the pattern matches and exposes zero
capture groups. -/
def no_group_engine : RegexEngine := fun pattern s =>
  if pattern = "^TRADE$" && s = "TRADE" then some ⟨[]⟩ else none

/-- Claim C7, counterexample. The classifier is not total on every
pattern: when the pattern matches but exposes fewer than two capture
groups, `match.group(2)` raises IndexError instead of returning `None`
— here at filename `TRADE`, pattern `^TRADE$`. -/
theorem c7_counterexample :
    get_datafiletype_id_from_filename no_group_engine "TRADE" "^TRADE$"
      = .error .indexError := by rfl

/-- Case analysis of the classifier: it either returns normally, or the
pattern matched with fewer than two capture groups and `group(2)`
raised IndexError. -/
theorem get_datafiletype_id_cases (rm : RegexEngine) (f p : String) :
    (∃ r, get_datafiletype_id_from_filename rm f p = .ok r) ∨
    (∃ m, rm p f = some m ∧ ¬ (2 - 1 < m.groups.length) ∧
      get_datafiletype_id_from_filename rm f p = .error .indexError) := by
  cases hmr : rm p f with
  | none =>
    left
    exact ⟨none, by unfold get_datafiletype_id_from_filename; rw [hmr]⟩
  | some m =>
    by_cases h1 : 2 - 1 < m.groups.length
    · left
      refine ⟨type_mapping_get (m.groups.get ⟨2 - 1, h1⟩), ?_⟩
      unfold get_datafiletype_id_from_filename
      rw [hmr]
      simp only [RegexMatch.group, h1, dif_pos]
    · right
      refine ⟨m, rfl, h1, ?_⟩
      unfold get_datafiletype_id_from_filename
      rw [hmr]
      simp only [RegexMatch.group, h1, dif_neg, dite_false]

/-- Claim C7, amended. The classifier is pure and raises no exception as
long as the pattern does not match, or matches while exposing at least
two capture groups — and returns an integer identifier or `None` there;
but when the pattern matches with fewer than two capture groups,
`match.group(2)` raises IndexError (so the classifier is not total on
every filename/pattern input). -/
theorem c7_amended (rm : RegexEngine) (f p : String) :
    (rm p f = none → get_datafiletype_id_from_filename rm f p = .ok none) ∧
    (∀ m, rm p f = some m → 2 ≤ m.groups.length →
      ∃ r, get_datafiletype_id_from_filename rm f p = .ok r) ∧
    (∀ e, get_datafiletype_id_from_filename rm f p = .error e →
      ∃ m, rm p f = some m ∧ m.groups.length < 2 ∧ e = .indexError) := by
  refine ⟨fun hm => ?_, fun m hm hlen => ?_, fun e he => ?_⟩
  · unfold get_datafiletype_id_from_filename
    rw [hm]
  · rcases get_datafiletype_id_cases rm f p with ⟨r, hr⟩ | ⟨m', hm', hlen', _⟩
    · exact ⟨r, hr⟩
    · rw [hm] at hm'
      cases hm'
      omega
  · rcases get_datafiletype_id_cases rm f p with ⟨r, hr⟩ | ⟨m, hm, hlen, heq⟩
    · rw [hr] at he
      exact Except.noConfusion he
    · rw [heq] at he
      have hee : PyExc.indexError = e := by injection he
      exact ⟨m, hm, by omega, hee.symm⟩

/-- Witness for C7 (amended), at the scenario inputs: a two-group match
and a no-match input both return normally. -/
theorem c7_amended_witness :
    (∃ r, get_datafiletype_id_from_filename re_match_trade
      "TRADE_IRS_20240101.csv" trade_pattern = .ok r) ∧
    get_datafiletype_id_from_filename re_match_trade
      "TRADE_XYZ_20240101.csv" trade_pattern = .ok none :=
  ⟨(c7_amended re_match_trade "TRADE_IRS_20240101.csv" trade_pattern).2.1
      ⟨[some "TRADE", some "IRS"]⟩ (by rfl) (by decide),
   (c7_amended re_match_trade "TRADE_XYZ_20240101.csv" trade_pattern).1 (by rfl)⟩

/-! ## Gateway lemmas — exact shape of each `insert_fileevent` outcome -/

/-- The COUNT(*) dedup query is positive exactly when a row with the
identity key is in the store. -/
theorem filter_beq_length_pos_iff (db : List IdentityKey) (key : IdentityKey) :
    0 < (db.filter (fun r => r == key)).length ↔ key ∈ db := by
  constructor
  · intro h
    cases hf : db.filter (fun r => r == key) with
    | nil => rw [hf] at h; simp at h
    | cons x xs =>
      have hx : x ∈ db.filter (fun r => r == key) := by
        rw [hf]; exact List.mem_cons_self x xs
      rw [List.mem_filter] at hx
      have hxk : x = key := by simpa using hx.2
      exact hxk ▸ hx.1
  · intro h
    have hmem : key ∈ db.filter (fun r => r == key) :=
      List.mem_filter.mpr ⟨h, by simp⟩
    exact List.length_pos.mpr (List.ne_nil_of_mem hmem)

/-- Dedup hit: the call returns `False` having issued only the
connection, the existence check and the `Skipped` audit line. -/
theorem insert_skip_eq (env : StoreEnv) (db : List IdentityKey)
    (server database tmplPath : String) (dft : Nat) (md fn fl : String)
    (d : PyDate) (hconn : env.connect_fails = false)
    (hdate : date_fromisoformat md = some d)
    (hmem : (⟨fn, fl, d, dft⟩ : IdentityKey) ∈ db) :
    insert_fileevent env db server database tmplPath dft md fn fl =
      ⟨.ok false, db,
        [.connectAttempt (conn_str_of server database),
         .checkQuery ⟨fn, fl, d, dft⟩,
         .auditLine (fn ++ "," ++ fl ++ ",Skipped")]⟩ := by
  unfold insert_fileevent
  rw [hdate]
  simp only [hconn, Bool.false_eq_true, if_false]
  rw [if_pos ((filter_beq_length_pos_iff db ⟨fn, fl, d, dft⟩).mpr hmem)]

/-- No dedup hit and a healthy insert path: the call reads the
template, executes the insert with the 14 positional parameters,
commits, writes the `Inserted` audit line and returns `True`; the store
gains the row. -/
theorem insert_insert_eq (env : StoreEnv) (db : List IdentityKey)
    (server database tmplPath : String) (dft : Nat) (md fn fl : String)
    (d : PyDate) (tc : String) (hconn : env.connect_fails = false)
    (hdate : date_fromisoformat md = some d)
    (hnot : (⟨fn, fl, d, dft⟩ : IdentityKey) ∉ db)
    (htmpl : env.template = some tc)
    (hexec : env.exec_fails = false) :
    insert_fileevent env db server database tmplPath dft md fn fl =
      ⟨.ok true, (⟨fn, fl, d, dft⟩ : IdentityKey) :: db,
        [.connectAttempt (conn_str_of server database),
         .checkQuery ⟨fn, fl, d, dft⟩,
         .templateRead tmplPath,
         .insertExec (insertParams d dft fn fl),
         .commit,
         .auditLine (fn ++ "," ++ fl ++ ",Inserted")]⟩ := by
  unfold insert_fileevent
  rw [hdate]
  simp only [hconn, Bool.false_eq_true, if_false]
  rw [if_neg (fun h => hnot ((filter_beq_length_pos_iff db ⟨fn, fl, d, dft⟩).mp h))]
  rw [htmpl]
  simp only [hexec, Bool.false_eq_true, if_false]

/-- No dedup hit but the insert execute/commit raises: the template had
already been read, yet nothing is inserted or committed and no audit
line is written — the caller counts the record as failed. -/
theorem insert_exec_fail_eq (env : StoreEnv) (db : List IdentityKey)
    (server database tmplPath : String) (dft : Nat) (md fn fl : String)
    (d : PyDate) (tc : String) (hconn : env.connect_fails = false)
    (hdate : date_fromisoformat md = some d)
    (hnot : (⟨fn, fl, d, dft⟩ : IdentityKey) ∉ db)
    (htmpl : env.template = some tc)
    (hexec : env.exec_fails = true) :
    insert_fileevent env db server database tmplPath dft md fn fl =
      ⟨.error .pyodbcError, db,
        [.connectAttempt (conn_str_of server database),
         .checkQuery ⟨fn, fl, d, dft⟩,
         .templateRead tmplPath]⟩ := by
  unfold insert_fileevent
  rw [hdate]
  simp only [hconn, Bool.false_eq_true, if_false]
  rw [if_neg (fun h => hnot ((filter_beq_length_pos_iff db ⟨fn, fl, d, dft⟩).mp h))]
  rw [htmpl]
  simp only [hexec, if_true]

/-- Connection failure: the exception propagates with only the
connection attempt in the trace and the store unchanged. -/
theorem insert_connect_fail_eq (env : StoreEnv) (db : List IdentityKey)
    (server database tmplPath : String) (dft : Nat) (md fn fl : String)
    (d : PyDate) (hconn : env.connect_fails = true)
    (hdate : date_fromisoformat md = some d) :
    insert_fileevent env db server database tmplPath dft md fn fl =
      ⟨.error .pyodbcError, db,
        [.connectAttempt (conn_str_of server database)]⟩ := by
  unfold insert_fileevent
  rw [hdate]
  simp only [hconn, if_true]

/-- Malformed market date: ValueError before anything is attempted. -/
theorem insert_baddate_eq (env : StoreEnv) (db : List IdentityKey)
    (server database tmplPath : String) (dft : Nat) (md fn fl : String)
    (hdate : date_fromisoformat md = none) :
    insert_fileevent env db server database tmplPath dft md fn fl =
      ⟨.error .valueError, db, []⟩ := by
  unfold insert_fileevent
  rw [hdate]

/-- Template unreadable: the check ran, then the open raised; nothing
was inserted or committed. -/
theorem insert_badtemplate_eq (env : StoreEnv) (db : List IdentityKey)
    (server database tmplPath : String) (dft : Nat) (md fn fl : String)
    (d : PyDate) (hconn : env.connect_fails = false)
    (hdate : date_fromisoformat md = some d)
    (hnot : (⟨fn, fl, d, dft⟩ : IdentityKey) ∉ db)
    (htmpl : env.template = none) :
    insert_fileevent env db server database tmplPath dft md fn fl =
      ⟨.error .ioError, db,
        [.connectAttempt (conn_str_of server database),
         .checkQuery ⟨fn, fl, d, dft⟩]⟩ := by
  unfold insert_fileevent
  rw [hdate]
  simp only [hconn, Bool.false_eq_true, if_false]
  rw [if_neg (fun h => hnot ((filter_beq_length_pos_iff db ⟨fn, fl, d, dft⟩).mp h))]
  rw [htmpl]

/-! ## Claim C1 — dedup-then-insert -/

/-- Claim C1. When a row with the identity key (file_name, file_location,
market_date, data_file_type_id) already exists in the store,
`insert_fileevent` returns `False` (Skipped) without executing the
insert statement and without committing; when none exists, it executes
the insert and commits, returning `True` (Inserted).  (Hypotheses: the
connection succeeds and the market date parses; the insert branch also
needs the template file readable.) -/
theorem c1_insert_fileevent_dedup (env : StoreEnv) (db : List IdentityKey)
    (server database tmplPath : String) (dft : Nat) (md fn fl : String)
    (d : PyDate) (hconn : env.connect_fails = false)
    (hdate : date_fromisoformat md = some d) :
    ((⟨fn, fl, d, dft⟩ : IdentityKey) ∈ db →
      (insert_fileevent env db server database tmplPath dft md fn fl).ret
          = .ok false ∧
      (insert_fileevent env db server database tmplPath dft md fn fl).db = db ∧
      (∀ ps, Event.insertExec ps
          ∉ (insert_fileevent env db server database tmplPath dft md fn fl).events) ∧
      Event.commit
          ∉ (insert_fileevent env db server database tmplPath dft md fn fl).events) ∧
    ((⟨fn, fl, d, dft⟩ : IdentityKey) ∉ db → ∀ tc, env.template = some tc →
      env.exec_fails = false →
      (insert_fileevent env db server database tmplPath dft md fn fl).ret
          = .ok true ∧
      (insert_fileevent env db server database tmplPath dft md fn fl).db
          = (⟨fn, fl, d, dft⟩ : IdentityKey) :: db ∧
      Event.insertExec (insertParams d dft fn fl)
          ∈ (insert_fileevent env db server database tmplPath dft md fn fl).events ∧
      Event.commit
          ∈ (insert_fileevent env db server database tmplPath dft md fn fl).events) := by
  constructor
  · intro hmem
    rw [insert_skip_eq env db server database tmplPath dft md fn fl d hconn hdate hmem]
    refine ⟨rfl, rfl, fun ps => ?_, ?_⟩ <;> simp
  · intro hnot tc htmpl hexec
    rw [insert_insert_eq env db server database tmplPath dft md fn fl d tc
      hconn hdate hnot htmpl hexec]
    refine ⟨rfl, rfl, ?_, ?_⟩ <;> simp

/-- Witness for C1: a concrete store holding the key (skip branch) and
a concrete empty store (insert branch). -/
theorem c1_insert_fileevent_dedup_witness :
    ((⟨"f.csv", "/src/f.csv", ⟨2024, 1, 1⟩, 1⟩ : IdentityKey)
        ∈ [(⟨"f.csv", "/src/f.csv", ⟨2024, 1, 1⟩, 1⟩ : IdentityKey)] →
      (insert_fileevent ⟨false, some "INSERT", false⟩
        [⟨"f.csv", "/src/f.csv", ⟨2024, 1, 1⟩, 1⟩] "srv" "db" "tmpl.sql" 1
        "2024-01-01" "f.csv" "/src/f.csv").ret = .ok false ∧
      (insert_fileevent ⟨false, some "INSERT", false⟩
        [⟨"f.csv", "/src/f.csv", ⟨2024, 1, 1⟩, 1⟩] "srv" "db" "tmpl.sql" 1
        "2024-01-01" "f.csv" "/src/f.csv").db
          = [⟨"f.csv", "/src/f.csv", ⟨2024, 1, 1⟩, 1⟩] ∧
      (∀ ps, Event.insertExec ps
          ∉ (insert_fileevent ⟨false, some "INSERT", false⟩
              [⟨"f.csv", "/src/f.csv", ⟨2024, 1, 1⟩, 1⟩] "srv" "db" "tmpl.sql" 1
              "2024-01-01" "f.csv" "/src/f.csv").events) ∧
      Event.commit ∉ (insert_fileevent ⟨false, some "INSERT", false⟩
          [⟨"f.csv", "/src/f.csv", ⟨2024, 1, 1⟩, 1⟩] "srv" "db" "tmpl.sql" 1
          "2024-01-01" "f.csv" "/src/f.csv").events) ∧
    ((⟨"f.csv", "/src/f.csv", ⟨2024, 1, 1⟩, 1⟩ : IdentityKey) ∉ ([] : List IdentityKey) →
      ∀ tc, (⟨false, some "INSERT", false⟩ : StoreEnv).template = some tc →
      (⟨false, some "INSERT", false⟩ : StoreEnv).exec_fails = false →
      (insert_fileevent ⟨false, some "INSERT", false⟩ [] "srv" "db" "tmpl.sql" 1
        "2024-01-01" "f.csv" "/src/f.csv").ret = .ok true ∧
      (insert_fileevent ⟨false, some "INSERT", false⟩ [] "srv" "db" "tmpl.sql" 1
        "2024-01-01" "f.csv" "/src/f.csv").db
          = [⟨"f.csv", "/src/f.csv", ⟨2024, 1, 1⟩, 1⟩] ∧
      Event.insertExec (insertParams ⟨2024, 1, 1⟩ 1 "f.csv" "/src/f.csv")
          ∈ (insert_fileevent ⟨false, some "INSERT", false⟩ [] "srv" "db" "tmpl.sql" 1
              "2024-01-01" "f.csv" "/src/f.csv").events ∧
      Event.commit ∈ (insert_fileevent ⟨false, some "INSERT", false⟩ [] "srv" "db"
          "tmpl.sql" 1 "2024-01-01" "f.csv" "/src/f.csv").events) :=
  ⟨(c1_insert_fileevent_dedup ⟨false, some "INSERT", false⟩
      [⟨"f.csv", "/src/f.csv", ⟨2024, 1, 1⟩, 1⟩] "srv" "db" "tmpl.sql" 1
      "2024-01-01" "f.csv" "/src/f.csv" ⟨2024, 1, 1⟩ (by rfl) (by rfl)).1,
   (c1_insert_fileevent_dedup ⟨false, some "INSERT", false⟩ [] "srv" "db" "tmpl.sql" 1
      "2024-01-01" "f.csv" "/src/f.csv" ⟨2024, 1, 1⟩ (by rfl) (by rfl)).2⟩

/-! ## Publisher step lemmas — exact shape of each loop iteration -/

/-- A missing `FILENAME_PATTERN` makes `re.match(None, filename)` raise
TypeError at the first record, outside the `try`. -/
theorem step_pattern_none_eq (rm : RegexEngine) (env : Nat → StoreEnv)
    (server dbase tmpl : String) (total idx : Nat) (st : RunState)
    (rec : FileRecEntry) :
    populate_step rm env server dbase tmpl none total idx st rec
      = .error .typeError := by rfl

/-- A classifier exception propagates out of the loop body (the
classification call is outside the `try`). -/
theorem step_classify_error_eq (rm : RegexEngine) (env : Nat → StoreEnv)
    (server dbase tmpl : String) (p : String) (total idx : Nat) (st : RunState)
    (rec : FileRecEntry) (e : PyExc)
    (hcls : get_datafiletype_id_from_filename rm rec.filename p = .error e) :
    populate_step rm env server dbase tmpl (some p) total idx st rec
      = .error e := by
  simp only [populate_step, hcls]

/-- Classification miss: a warning is logged and the record is skipped
with `continue` — no store call, no counter change, no progress line. -/
theorem step_miss_eq (rm : RegexEngine) (env : Nat → StoreEnv)
    (server dbase tmpl : String) (p : String) (total idx : Nat) (st : RunState)
    (rec : FileRecEntry)
    (hcls : get_datafiletype_id_from_filename rm rec.filename p = .ok none) :
    populate_step rm env server dbase tmpl (some p) total idx st rec
      = .ok { st with events := st.events ++
          [.appWarning ("Unknown file type for: " ++ rec.filename)] } := by
  simp only [populate_step, hcls]

/-- Classified record whose publish returns `True`: `inserted` is
incremented and the progress line shows the updated cumulative counts. -/
theorem step_inserted_eq (rm : RegexEngine) (env : Nat → StoreEnv)
    (server dbase tmpl : String) (p : String) (total idx : Nat) (st : RunState)
    (rec : FileRecEntry) (id : Nat)
    (hcls : get_datafiletype_id_from_filename rm rec.filename p = .ok (some id))
    (hret : (insert_fileevent (env idx) st.db server dbase tmpl id
        rec.formatted_date rec.filename rec.src_full_path).ret = .ok true) :
    populate_step rm env server dbase tmpl (some p) total idx st rec
      = .ok ⟨(insert_fileevent (env idx) st.db server dbase tmpl id
            rec.formatted_date rec.filename rec.src_full_path).db,
          st.inserted + 1, st.skipped, st.failed,
          st.events ++ (insert_fileevent (env idx) st.db server dbase tmpl id
            rec.formatted_date rec.filename rec.src_full_path).events ++
          [.progress (st.inserted + 1 + st.skipped + st.failed) total
            (total - (st.inserted + 1 + st.skipped + st.failed)) st.failed]⟩ := by
  simp only [populate_step, hcls, hret]

/-- Classified record whose publish returns `False` (dedup skip):
`skipped` is incremented. -/
theorem step_skipped_eq (rm : RegexEngine) (env : Nat → StoreEnv)
    (server dbase tmpl : String) (p : String) (total idx : Nat) (st : RunState)
    (rec : FileRecEntry) (id : Nat)
    (hcls : get_datafiletype_id_from_filename rm rec.filename p = .ok (some id))
    (hret : (insert_fileevent (env idx) st.db server dbase tmpl id
        rec.formatted_date rec.filename rec.src_full_path).ret = .ok false) :
    populate_step rm env server dbase tmpl (some p) total idx st rec
      = .ok ⟨(insert_fileevent (env idx) st.db server dbase tmpl id
            rec.formatted_date rec.filename rec.src_full_path).db,
          st.inserted, st.skipped + 1, st.failed,
          st.events ++ (insert_fileevent (env idx) st.db server dbase tmpl id
            rec.formatted_date rec.filename rec.src_full_path).events ++
          [.progress (st.inserted + (st.skipped + 1) + st.failed) total
            (total - (st.inserted + (st.skipped + 1) + st.failed)) st.failed]⟩ := by
  simp only [populate_step, hcls, hret]

/-- Classified record whose publish raises: the exception is caught,
`failed` is incremented, and the loop continues. -/
theorem step_failed_eq (rm : RegexEngine) (env : Nat → StoreEnv)
    (server dbase tmpl : String) (p : String) (total idx : Nat) (st : RunState)
    (rec : FileRecEntry) (id : Nat) (e : PyExc)
    (hcls : get_datafiletype_id_from_filename rm rec.filename p = .ok (some id))
    (hret : (insert_fileevent (env idx) st.db server dbase tmpl id
        rec.formatted_date rec.filename rec.src_full_path).ret = .error e) :
    populate_step rm env server dbase tmpl (some p) total idx st rec
      = .ok ⟨(insert_fileevent (env idx) st.db server dbase tmpl id
            rec.formatted_date rec.filename rec.src_full_path).db,
          st.inserted, st.skipped, st.failed + 1,
          st.events ++ (insert_fileevent (env idx) st.db server dbase tmpl id
            rec.formatted_date rec.filename rec.src_full_path).events ++
          [.progress (st.inserted + st.skipped + (st.failed + 1)) total
            (total - (st.inserted + st.skipped + (st.failed + 1))) (st.failed + 1)]⟩ := by
  simp only [populate_step, hcls, hret]

/-- Exhaustive case analysis of one `insert_fileevent` call: malformed
date, connection failure, dedup skip, unreadable template, or insert. -/
theorem insert_fileevent_cases (env : StoreEnv) (db : List IdentityKey)
    (server dbase tmplPath : String) (dft : Nat) (md fn fl : String) :
    (date_fromisoformat md = none ∧
      insert_fileevent env db server dbase tmplPath dft md fn fl
        = ⟨.error .valueError, db, []⟩) ∨
    (∃ d, date_fromisoformat md = some d ∧
      ((env.connect_fails = true ∧
        insert_fileevent env db server dbase tmplPath dft md fn fl
          = ⟨.error .pyodbcError, db,
              [.connectAttempt (conn_str_of server dbase)]⟩) ∨
       (env.connect_fails = false ∧
        (((⟨fn, fl, d, dft⟩ : IdentityKey) ∈ db ∧
          insert_fileevent env db server dbase tmplPath dft md fn fl
            = ⟨.ok false, db,
                [.connectAttempt (conn_str_of server dbase),
                 .checkQuery ⟨fn, fl, d, dft⟩,
                 .auditLine (fn ++ "," ++ fl ++ ",Skipped")]⟩) ∨
         ((⟨fn, fl, d, dft⟩ : IdentityKey) ∉ db ∧
          ((env.template = none ∧
            insert_fileevent env db server dbase tmplPath dft md fn fl
              = ⟨.error .ioError, db,
                  [.connectAttempt (conn_str_of server dbase),
                   .checkQuery ⟨fn, fl, d, dft⟩]⟩) ∨
           (∃ tc, env.template = some tc ∧
            ((env.exec_fails = true ∧
              insert_fileevent env db server dbase tmplPath dft md fn fl
                = ⟨.error .pyodbcError, db,
                    [.connectAttempt (conn_str_of server dbase),
                     .checkQuery ⟨fn, fl, d, dft⟩,
                     .templateRead tmplPath]⟩) ∨
             (env.exec_fails = false ∧
              insert_fileevent env db server dbase tmplPath dft md fn fl
                = ⟨.ok true, (⟨fn, fl, d, dft⟩ : IdentityKey) :: db,
                    [.connectAttempt (conn_str_of server dbase),
                     .checkQuery ⟨fn, fl, d, dft⟩,
                     .templateRead tmplPath,
                     .insertExec (insertParams d dft fn fl),
                     .commit,
                     .auditLine (fn ++ "," ++ fl ++ ",Inserted")]⟩))))))))) := by
  cases hdate : date_fromisoformat md with
  | none =>
    exact Or.inl ⟨rfl, insert_baddate_eq env db server dbase tmplPath dft md fn fl hdate⟩
  | some d =>
    refine Or.inr ⟨d, rfl, ?_⟩
    cases hconn : env.connect_fails with
    | true =>
      exact Or.inl ⟨rfl,
        insert_connect_fail_eq env db server dbase tmplPath dft md fn fl d hconn hdate⟩
    | false =>
      refine Or.inr ⟨rfl, ?_⟩
      by_cases hmem : (⟨fn, fl, d, dft⟩ : IdentityKey) ∈ db
      · exact Or.inl ⟨hmem,
          insert_skip_eq env db server dbase tmplPath dft md fn fl d hconn hdate hmem⟩
      · refine Or.inr ⟨hmem, ?_⟩
        cases htmpl : env.template with
        | none =>
          exact Or.inl ⟨rfl, insert_badtemplate_eq env db server dbase tmplPath
            dft md fn fl d hconn hdate hmem htmpl⟩
        | some tc =>
          refine Or.inr ⟨tc, rfl, ?_⟩
          cases hexec : env.exec_fails with
          | true =>
            exact Or.inl ⟨rfl, insert_exec_fail_eq env db server dbase tmplPath
              dft md fn fl d tc hconn hdate hmem htmpl hexec⟩
          | false =>
            exact Or.inr ⟨rfl, insert_insert_eq env db server dbase tmplPath
              dft md fn fl d tc hconn hdate hmem htmpl hexec⟩

/-- The gateway `insert_fileevent` never prints a progress line. -/
theorem insert_no_progress (env : StoreEnv) (db : List IdentityKey)
    (server dbase tmplPath : String) (dft : Nat) (md fn fl : String) :
    (insert_fileevent env db server dbase tmplPath dft md fn fl).events.filter
      isProgressB = [] := by
  rcases insert_fileevent_cases env db server dbase tmplPath dft md fn fl with
    ⟨_, heq⟩ | ⟨d, _, ⟨_, heq⟩ | ⟨_, ⟨_, heq⟩ | ⟨_, ⟨_, heq⟩ |
      ⟨tc, _, ⟨_, heq⟩ | ⟨_, heq⟩⟩⟩⟩⟩ <;>
    rw [heq] <;> rfl

/-- A failed call writes no audit line. -/
theorem insert_audit_of_error (env : StoreEnv) (db : List IdentityKey)
    (server dbase tmplPath : String) (dft : Nat) (md fn fl : String) (e : PyExc)
    (hret : (insert_fileevent env db server dbase tmplPath dft md fn fl).ret
      = .error e) :
    (insert_fileevent env db server dbase tmplPath dft md fn fl).events.filter
      isAuditLineB = [] := by
  rcases insert_fileevent_cases env db server dbase tmplPath dft md fn fl with
    ⟨_, heq⟩ | ⟨d, _, ⟨_, heq⟩ | ⟨_, ⟨_, heq⟩ | ⟨_, ⟨_, heq⟩ |
      ⟨tc, _, ⟨_, heq⟩ | ⟨_, heq⟩⟩⟩⟩⟩ <;>
    rw [heq] at hret ⊢ <;> first
    | rfl
    | simp at hret

/-- A call that returns (`True` or `False`) writes exactly one audit line. -/
theorem insert_audit_of_ok (env : StoreEnv) (db : List IdentityKey)
    (server dbase tmplPath : String) (dft : Nat) (md fn fl : String) (b : Bool)
    (hret : (insert_fileevent env db server dbase tmplPath dft md fn fl).ret
      = .ok b) :
    ((insert_fileevent env db server dbase tmplPath dft md fn fl).events.filter
      isAuditLineB).length = 1 := by
  rcases insert_fileevent_cases env db server dbase tmplPath dft md fn fl with
    ⟨_, heq⟩ | ⟨d, _, ⟨_, heq⟩ | ⟨_, ⟨_, heq⟩ | ⟨_, ⟨_, heq⟩ |
      ⟨tc, _, ⟨_, heq⟩ | ⟨_, heq⟩⟩⟩⟩⟩ <;>
    rw [heq] at hret ⊢ <;> first
    | rfl
    | simp at hret

/-- An inserting call writes the `Inserted` audit line for its record. -/
theorem insert_audit_inserted_mem (env : StoreEnv) (db : List IdentityKey)
    (server dbase tmplPath : String) (dft : Nat) (md fn fl : String)
    (hret : (insert_fileevent env db server dbase tmplPath dft md fn fl).ret
      = .ok true) :
    Event.auditLine (fn ++ "," ++ fl ++ ",Inserted")
      ∈ (insert_fileevent env db server dbase tmplPath dft md fn fl).events := by
  rcases insert_fileevent_cases env db server dbase tmplPath dft md fn fl with
    ⟨_, heq⟩ | ⟨d, _, ⟨_, heq⟩ | ⟨_, ⟨_, heq⟩ | ⟨_, ⟨_, heq⟩ |
      ⟨tc, _, ⟨_, heq⟩ | ⟨_, heq⟩⟩⟩⟩⟩ <;>
    rw [heq] at hret ⊢ <;> first
    | (simp
       done)
    | simp at hret

/-- A skipping call writes the `Skipped` audit line for its record. -/
theorem insert_audit_skipped_mem (env : StoreEnv) (db : List IdentityKey)
    (server dbase tmplPath : String) (dft : Nat) (md fn fl : String)
    (hret : (insert_fileevent env db server dbase tmplPath dft md fn fl).ret
      = .ok false) :
    Event.auditLine (fn ++ "," ++ fl ++ ",Skipped")
      ∈ (insert_fileevent env db server dbase tmplPath dft md fn fl).events := by
  rcases insert_fileevent_cases env db server dbase tmplPath dft md fn fl with
    ⟨_, heq⟩ | ⟨d, _, ⟨_, heq⟩ | ⟨_, ⟨_, heq⟩ | ⟨_, ⟨_, heq⟩ |
      ⟨tc, _, ⟨_, heq⟩ | ⟨_, heq⟩⟩⟩⟩⟩ <;>
    rw [heq] at hret ⊢ <;> first
    | (simp
       done)
    | simp at hret

/-- A call that returns read the template exactly when it inserted:
a dedup skip returns before the `open` is reached. -/
theorem insert_template_of_ok (env : StoreEnv) (db : List IdentityKey)
    (server dbase tmplPath : String) (dft : Nat) (md fn fl : String) (b : Bool)
    (hret : (insert_fileevent env db server dbase tmplPath dft md fn fl).ret
      = .ok b) :
    ((insert_fileevent env db server dbase tmplPath dft md fn fl).events.filter
      isTemplateReadB).length = if b then 1 else 0 := by
  rcases insert_fileevent_cases env db server dbase tmplPath dft md fn fl with
    ⟨_, heq⟩ | ⟨d, _, ⟨_, heq⟩ | ⟨_, ⟨_, heq⟩ | ⟨_, ⟨_, heq⟩ |
      ⟨tc, _, ⟨_, heq⟩ | ⟨_, heq⟩⟩⟩⟩⟩ <;>
    rw [heq] at hret ⊢ <;> first
    | (simp at hret
       subst hret
       rfl)
    | simp at hret

/-- No single call reads the template more than once — but a call whose
insert execute/commit fails has read the template (counted as failed). -/
theorem insert_template_le_one (env : StoreEnv) (db : List IdentityKey)
    (server dbase tmplPath : String) (dft : Nat) (md fn fl : String) :
    ((insert_fileevent env db server dbase tmplPath dft md fn fl).events.filter
      isTemplateReadB).length ≤ 1 := by
  rcases insert_fileevent_cases env db server dbase tmplPath dft md fn fl with
    ⟨_, heq⟩ | ⟨d, _, ⟨_, heq⟩ | ⟨_, ⟨_, heq⟩ | ⟨_, ⟨_, heq⟩ |
      ⟨tc, _, ⟨_, heq⟩ | ⟨_, heq⟩⟩⟩⟩⟩ <;>
    rw [heq] <;> simp [isTemplateReadB]

/-- A call that returns issued exactly the dedup check for its key. -/
theorem insert_check_keys (env : StoreEnv) (db : List IdentityKey)
    (server dbase tmplPath : String) (dft : Nat) (md fn fl : String) (b : Bool)
    (d : PyDate) (hdate : date_fromisoformat md = some d)
    (hret : (insert_fileevent env db server dbase tmplPath dft md fn fl).ret
      = .ok b) :
    checkKeys (insert_fileevent env db server dbase tmplPath dft md fn fl).events
      = [⟨fn, fl, d, dft⟩] := by
  rcases insert_fileevent_cases env db server dbase tmplPath dft md fn fl with
    ⟨hd, heq⟩ | ⟨d', hd, ⟨_, heq⟩ | ⟨_, ⟨_, heq⟩ | ⟨_, ⟨_, heq⟩ |
      ⟨tc, _, ⟨_, heq⟩ | ⟨_, heq⟩⟩⟩⟩⟩ <;>
    rw [heq] at hret ⊢ <;>
    rw [hdate] at hd <;> first
    | (cases hd; rfl)
    | simp at hret

/-- Inversion of a loop iteration that did not raise: either a
classification miss, or a publish attempt that was counted as inserted,
skipped or failed. -/
theorem step_ok_inversion (rm : RegexEngine) (env : Nat → StoreEnv)
    (server dbase tmpl : String) (p : String) (total idx : Nat) (st : RunState)
    (rec : FileRecEntry) (st' : RunState)
    (h : populate_step rm env server dbase tmpl (some p) total idx st rec
      = .ok st') :
    (get_datafiletype_id_from_filename rm rec.filename p = .ok none ∧
      st' = { st with events := st.events ++
        [.appWarning ("Unknown file type for: " ++ rec.filename)] }) ∨
    (∃ id, get_datafiletype_id_from_filename rm rec.filename p = .ok (some id) ∧
      (((insert_fileevent (env idx) st.db server dbase tmpl id
            rec.formatted_date rec.filename rec.src_full_path).ret = .ok true ∧
        st' = ⟨(insert_fileevent (env idx) st.db server dbase tmpl id
              rec.formatted_date rec.filename rec.src_full_path).db,
            st.inserted + 1, st.skipped, st.failed,
            st.events ++ (insert_fileevent (env idx) st.db server dbase tmpl id
              rec.formatted_date rec.filename rec.src_full_path).events ++
            [.progress (st.inserted + 1 + st.skipped + st.failed) total
              (total - (st.inserted + 1 + st.skipped + st.failed)) st.failed]⟩) ∨
       ((insert_fileevent (env idx) st.db server dbase tmpl id
            rec.formatted_date rec.filename rec.src_full_path).ret = .ok false ∧
        st' = ⟨(insert_fileevent (env idx) st.db server dbase tmpl id
              rec.formatted_date rec.filename rec.src_full_path).db,
            st.inserted, st.skipped + 1, st.failed,
            st.events ++ (insert_fileevent (env idx) st.db server dbase tmpl id
              rec.formatted_date rec.filename rec.src_full_path).events ++
            [.progress (st.inserted + (st.skipped + 1) + st.failed) total
              (total - (st.inserted + (st.skipped + 1) + st.failed)) st.failed]⟩) ∨
       (∃ e, (insert_fileevent (env idx) st.db server dbase tmpl id
            rec.formatted_date rec.filename rec.src_full_path).ret = .error e ∧
        st' = ⟨(insert_fileevent (env idx) st.db server dbase tmpl id
              rec.formatted_date rec.filename rec.src_full_path).db,
            st.inserted, st.skipped, st.failed + 1,
            st.events ++ (insert_fileevent (env idx) st.db server dbase tmpl id
              rec.formatted_date rec.filename rec.src_full_path).events ++
            [.progress (st.inserted + st.skipped + (st.failed + 1)) total
              (total - (st.inserted + st.skipped + (st.failed + 1)))
              (st.failed + 1)]⟩))) := by
  cases hcls : get_datafiletype_id_from_filename rm rec.filename p with
  | error e =>
    rw [step_classify_error_eq rm env server dbase tmpl p total idx st rec e hcls] at h
    exact absurd h (by simp)
  | ok o =>
    cases o with
    | none =>
      rw [step_miss_eq rm env server dbase tmpl p total idx st rec hcls] at h
      exact Or.inl ⟨rfl, (Except.ok.inj h).symm⟩
    | some id =>
      refine Or.inr ⟨id, rfl, ?_⟩
      cases hret : (insert_fileevent (env idx) st.db server dbase tmpl id
          rec.formatted_date rec.filename rec.src_full_path).ret with
      | ok b =>
        cases b with
        | true =>
          rw [step_inserted_eq rm env server dbase tmpl p total idx st rec id
            hcls hret] at h
          exact Or.inl ⟨rfl, (Except.ok.inj h).symm⟩
        | false =>
          rw [step_skipped_eq rm env server dbase tmpl p total idx st rec id
            hcls hret] at h
          exact Or.inr (Or.inl ⟨rfl, (Except.ok.inj h).symm⟩)
      | error e =>
        rw [step_failed_eq rm env server dbase tmpl p total idx st rec id e
          hcls hret] at h
        exact Or.inr (Or.inr ⟨e, rfl, (Except.ok.inj h).symm⟩)

/-- Invariant facts about one non-raising loop iteration: counters are
monotone and at most one of them is incremented; events are only
appended; audit lines track `inserted + skipped`; the template-read
count grows at least with `inserted` and at most with
`inserted + failed` (a failing insert execute/commit has already read
the template). -/
theorem step_ok_facts (rm : RegexEngine) (env : Nat → StoreEnv)
    (server dbase tmpl : String) (pat : Option String) (total idx : Nat)
    (st : RunState) (rec : FileRecEntry) (st' : RunState)
    (h : populate_step rm env server dbase tmpl pat total idx st rec = .ok st') :
    st.inserted ≤ st'.inserted ∧ st.skipped ≤ st'.skipped ∧
    st.failed ≤ st'.failed ∧
    st'.inserted + st'.skipped + st'.failed
      ≤ st.inserted + st.skipped + st.failed + 1 ∧
    (∃ t, st'.events = st.events ++ t) ∧
    (st'.events.filter isAuditLineB).length + st.inserted + st.skipped
      = (st.events.filter isAuditLineB).length + st'.inserted + st'.skipped ∧
    (st.events.filter isTemplateReadB).length + st'.inserted
      ≤ (st'.events.filter isTemplateReadB).length + st.inserted ∧
    (st'.events.filter isTemplateReadB).length + st.inserted + st.failed
      ≤ (st.events.filter isTemplateReadB).length + st'.inserted + st'.failed := by
  cases pat with
  | none =>
    rw [step_pattern_none_eq] at h
    exact absurd h (by simp)
  | some p =>
    rcases step_ok_inversion rm env server dbase tmpl p total idx st rec st' h with
      ⟨hcls, rfl⟩ | ⟨id, hcls, ⟨hret, rfl⟩ | ⟨hret, rfl⟩ | ⟨e, hret, rfl⟩⟩
    · refine ⟨le_refl _, le_refl _, le_refl _, by simp, ⟨_, rfl⟩, ?_, ?_, ?_⟩ <;>
        simp [List.filter_append, isAuditLineB, isTemplateReadB]
    · have ha := insert_audit_of_ok (env idx) st.db server dbase tmpl id
        rec.formatted_date rec.filename rec.src_full_path true hret
      have ht := insert_template_of_ok (env idx) st.db server dbase tmpl id
        rec.formatted_date rec.filename rec.src_full_path true hret
      refine ⟨by simp, le_refl _, le_refl _, by simp; try omega, ?_, ?_, ?_, ?_⟩
      · exact ⟨_, by rw [List.append_assoc]⟩
      · simp [List.filter_append, ha, isAuditLineB, isProgressB]
        try omega
      · simp [List.filter_append, ht, isTemplateReadB]
        try omega
      · simp [List.filter_append, ht, isTemplateReadB]
        try omega
    · have ha := insert_audit_of_ok (env idx) st.db server dbase tmpl id
        rec.formatted_date rec.filename rec.src_full_path false hret
      have ht := insert_template_of_ok (env idx) st.db server dbase tmpl id
        rec.formatted_date rec.filename rec.src_full_path false hret
      refine ⟨le_refl _, by simp, le_refl _, by simp; try omega, ?_, ?_, ?_, ?_⟩
      · exact ⟨_, by rw [List.append_assoc]⟩
      · simp [List.filter_append, ha, isAuditLineB]
        try omega
      · simp [List.filter_append, ht, isTemplateReadB]
        try omega
      · simp [List.filter_append, ht, isTemplateReadB]
        try omega
    · have ha := insert_audit_of_error (env idx) st.db server dbase tmpl id
        rec.formatted_date rec.filename rec.src_full_path e hret
      have ht := insert_template_le_one (env idx) st.db server dbase tmpl id
        rec.formatted_date rec.filename rec.src_full_path
      refine ⟨le_refl _, le_refl _, by simp, by simp; try omega, ?_, ?_, ?_, ?_⟩
      · exact ⟨_, by rw [List.append_assoc]⟩
      · simp [List.filter_append, ha, isAuditLineB]
        try omega
      · simp [List.filter_append, isTemplateReadB]
        try omega
      · simp [List.filter_append, isTemplateReadB]
        omega

/-- The loop-level invariants: counters are monotone and bounded by the
number of records processed; events are append-only; audit lines track
`inserted + skipped`; the template-read count lies between the growth
of `inserted` and of `inserted + failed`.  They hold for completed and
aborted runs alike. -/
theorem populate_loop_invariants (rm : RegexEngine) (env : Nat → StoreEnv)
    (server dbase tmpl : String) (pat : Option String) (total : Nat)
    (l : List FileRecEntry) :
    ∀ (idx : Nat) (st st' : RunState) (oe : Option PyExc),
      populate_loop rm env server dbase tmpl pat total idx st l = (st', oe) →
      st.inserted ≤ st'.inserted ∧ st.skipped ≤ st'.skipped ∧
      st.failed ≤ st'.failed ∧
      st'.inserted + st'.skipped + st'.failed
        ≤ st.inserted + st.skipped + st.failed + l.length ∧
      (∃ t, st'.events = st.events ++ t) ∧
      (st'.events.filter isAuditLineB).length + st.inserted + st.skipped
        = (st.events.filter isAuditLineB).length + st'.inserted + st'.skipped ∧
      (st.events.filter isTemplateReadB).length + st'.inserted
        ≤ (st'.events.filter isTemplateReadB).length + st.inserted ∧
      (st'.events.filter isTemplateReadB).length + st.inserted + st.failed
        ≤ (st.events.filter isTemplateReadB).length + st'.inserted
          + st'.failed := by
  induction l with
  | nil =>
    intro idx st st' oe h
    rw [populate_loop] at h
    cases h
    exact ⟨le_refl _, le_refl _, le_refl _, by simp, ⟨[], by simp⟩, rfl,
      le_refl _, le_refl _⟩
  | cons rec rest ih =>
    intro idx st st' oe h
    rw [populate_loop] at h
    cases hstep : populate_step rm env server dbase tmpl pat total idx st rec with
    | error e =>
      rw [hstep] at h
      cases h
      exact ⟨le_refl _, le_refl _, le_refl _, by simp, ⟨[], by simp⟩,
        rfl, le_refl _, le_refl _⟩
    | ok st1 =>
      rw [hstep] at h
      obtain ⟨i1, i2, i3, i4, ⟨t1, e1⟩, a1, lo1, up1⟩ :=
        step_ok_facts rm env server dbase tmpl pat total idx st rec st1 hstep
      obtain ⟨j1, j2, j3, j4, ⟨t2, e2⟩, a2, lo2, up2⟩ := ih (idx + 1) st1 st' oe h
      refine ⟨le_trans i1 j1, le_trans i2 j2, le_trans i3 j3, by simp; omega,
        ⟨t1 ++ t2, by rw [e2, e1, List.append_assoc]⟩, by omega, by omega,
        by omega⟩

/-! ## Claim C10 — counter invariants -/

/-- Claim C10. Each record increments at most one of the three counters
(and a classification miss increments none), counters only grow, so at
every point `inserted + skipped + failed` is bounded by the number of
records, and in particular the returned `failed` never exceeds `total`. -/
theorem c10_counters_invariant :
    (∀ (rm : RegexEngine) (env : Nat → StoreEnv) (server dbase tmpl : String)
       (pat : Option String) (total idx : Nat) (st : RunState)
       (rec : FileRecEntry) (st' : RunState),
      populate_step rm env server dbase tmpl pat total idx st rec = .ok st' →
      st.inserted ≤ st'.inserted ∧ st.skipped ≤ st'.skipped ∧
      st.failed ≤ st'.failed ∧
      st'.inserted + st'.skipped + st'.failed
        ≤ st.inserted + st.skipped + st.failed + 1) ∧
    (∀ (rm : RegexEngine) (env : Nat → StoreEnv) (server dbase tmpl : String)
       (p : String) (total idx : Nat) (st : RunState) (rec : FileRecEntry),
      get_datafiletype_id_from_filename rm rec.filename p = .ok none →
      ∃ st', populate_step rm env server dbase tmpl (some p) total idx st rec
          = .ok st' ∧
        st'.inserted = st.inserted ∧ st'.skipped = st.skipped ∧
        st'.failed = st.failed) ∧
    (∀ (rm : RegexEngine) (env : Nat → StoreEnv) (db0 : List IdentityKey)
       (l : List FileRecEntry) (server dbase tmpl : String)
       (pat : Option String) (st : RunState) (oe : Option PyExc),
      populate_fileevents rm env db0 l server dbase tmpl pat = (st, oe) →
      st.inserted + st.skipped + st.failed ≤ l.length ∧
      st.failed ≤ l.length) := by
  refine ⟨?_, ?_, ?_⟩
  · intro rm env server dbase tmpl pat total idx st rec st' h
    obtain ⟨h1, h2, h3, h4, _⟩ :=
      step_ok_facts rm env server dbase tmpl pat total idx st rec st' h
    exact ⟨h1, h2, h3, h4⟩
  · intro rm env server dbase tmpl p total idx st rec hcls
    exact ⟨_, step_miss_eq rm env server dbase tmpl p total idx st rec hcls,
      rfl, rfl, rfl⟩
  · intro rm env db0 l server dbase tmpl pat st oe h
    obtain ⟨h1, h2, h3, h4, _⟩ := populate_loop_invariants rm env server dbase
      tmpl pat l.length l 0 ⟨db0, 0, 0, 0, []⟩ st oe h
    refine ⟨by simpa using h4, ?_⟩
    have := by simpa using h4
    omega

/-- Witness for C10: the run invariant applied to a concrete
single-record run. -/
theorem c10_counters_invariant_witness :
    (populate_fileevents re_match_trade (fun _ => ⟨false, some "I", false⟩) []
        [⟨"/a", "AAA_IRS_a.csv", "2024-01-01", ""⟩] "s" "d" "t"
        (some trade_pattern)).1.inserted +
      (populate_fileevents re_match_trade (fun _ => ⟨false, some "I", false⟩) []
        [⟨"/a", "AAA_IRS_a.csv", "2024-01-01", ""⟩] "s" "d" "t"
        (some trade_pattern)).1.skipped +
      (populate_fileevents re_match_trade (fun _ => ⟨false, some "I", false⟩) []
        [⟨"/a", "AAA_IRS_a.csv", "2024-01-01", ""⟩] "s" "d" "t"
        (some trade_pattern)).1.failed ≤ 1 ∧
    (populate_fileevents re_match_trade (fun _ => ⟨false, some "I", false⟩) []
        [⟨"/a", "AAA_IRS_a.csv", "2024-01-01", ""⟩] "s" "d" "t"
        (some trade_pattern)).1.failed ≤ 1 :=
  c10_counters_invariant.2.2 re_match_trade (fun _ => ⟨false, some "I", false⟩) []
    [⟨"/a", "AAA_IRS_a.csv", "2024-01-01", ""⟩] "s" "d" "t"
    (some trade_pattern) _ _ rfl

/-! ## Claim C9 — no audit line for failed records -/

/-- Claim C9. A publish attempt that raises writes no audit line, and over
a whole run the number of audit lines equals `inserted + skipped`: the
audit trail has entries exactly for Inserted/Skipped outcomes, none for
failed or classification-miss records. -/
theorem c9_audit_only_for_outcomes :
    (∀ (env : StoreEnv) (db : List IdentityKey)
       (server dbase tmplPath : String) (dft : Nat) (md fn fl : String)
       (e : PyExc),
      (insert_fileevent env db server dbase tmplPath dft md fn fl).ret
        = .error e →
      (insert_fileevent env db server dbase tmplPath dft md fn fl).events.filter
        isAuditLineB = []) ∧
    (∀ (rm : RegexEngine) (env : Nat → StoreEnv) (db0 : List IdentityKey)
       (l : List FileRecEntry) (server dbase tmpl : String)
       (pat : Option String) (st : RunState) (oe : Option PyExc),
      populate_fileevents rm env db0 l server dbase tmpl pat = (st, oe) →
      (st.events.filter isAuditLineB).length = st.inserted + st.skipped) := by
  refine ⟨insert_audit_of_error, ?_⟩
  intro rm env db0 l server dbase tmpl pat st oe h
  obtain ⟨_, _, _, _, _, ha, _⟩ := populate_loop_invariants rm env server dbase
    tmpl pat l.length l 0 ⟨db0, 0, 0, 0, []⟩ st oe h
  simpa using ha

/-- Witness for C9: a concrete failing call (store down) and a concrete
completed run. -/
theorem c9_audit_only_for_outcomes_witness :
    (insert_fileevent ⟨true, some "I", false⟩ [] "s" "d" "t" 1 "2024-01-01" "f" "/f").events.filter
      isAuditLineB = [] ∧
    ((populate_fileevents re_match_trade (fun _ => ⟨false, some "I", false⟩) []
        [⟨"/a", "AAA_IRS_a.csv", "2024-01-01", ""⟩] "s" "d" "t"
        (some trade_pattern)).1.events.filter isAuditLineB).length
      = (populate_fileevents re_match_trade (fun _ => ⟨false, some "I", false⟩) []
        [⟨"/a", "AAA_IRS_a.csv", "2024-01-01", ""⟩] "s" "d" "t"
        (some trade_pattern)).1.inserted +
        (populate_fileevents re_match_trade (fun _ => ⟨false, some "I", false⟩) []
        [⟨"/a", "AAA_IRS_a.csv", "2024-01-01", ""⟩] "s" "d" "t"
        (some trade_pattern)).1.skipped :=
  ⟨c9_audit_only_for_outcomes.1 ⟨true, some "I", false⟩ [] "s" "d" "t" 1 "2024-01-01"
      "f" "/f" .pyodbcError (by rfl),
   c9_audit_only_for_outcomes.2 re_match_trade (fun _ => ⟨false, some "I", false⟩) []
      [⟨"/a", "AAA_IRS_a.csv", "2024-01-01", ""⟩] "s" "d" "t"
      (some trade_pattern) _ _ rfl⟩

/-! ## Claim C5 — insert statement parameters and template reads -/

/-- Claim C5, counterexample. The template file is not read just once: a
run inserting two records reads it twice — it is re-read inside
`insert_fileevent` for every inserted record. -/
theorem c5_counterexample :
    ((populate_fileevents re_match_trade (fun _ => ⟨false, some "I", false⟩) []
        [⟨"/a", "AAA_IRS_a.csv", "2024-01-01", ""⟩,
         ⟨"/b", "BBB_OIS_b.csv", "2024-01-02", ""⟩] "s" "d" "t"
        (some trade_pattern)).1.inserted = 2) ∧
    ((populate_fileevents re_match_trade (fun _ => ⟨false, some "I", false⟩) []
        [⟨"/a", "AAA_IRS_a.csv", "2024-01-01", ""⟩,
         ⟨"/b", "BBB_OIS_b.csv", "2024-01-02", ""⟩] "s" "d" "t"
        (some trade_pattern)).1.events.filter isTemplateReadB).length = 2 := by
  exact ⟨by rfl, by rfl⟩

/-- Claim C5, amended. Every executed insert carries exactly 14
positional parameters, identity-key fields first (MarketDate,
DataFileTypeId, FileName, FileLocation) and then the fixed
administrative metadata in source order; the template file is opened
and read inside the insert routine on every attempt that passes the
existence check — re-read for every inserted record (not cached after
the first insert), and also already read when the subsequent insert
execute/commit fails — while a dedup skip returns before the read;
over a run the number of template reads lies between `inserted` and
`inserted + failed`. -/
theorem c5_insert_params_amended :
    (∀ (d : PyDate) (dft : Nat) (fn fl : String),
      insertParams d dft fn fl =
        [ .pDate d, .pInt dft, .pStr fn, .pStr fl,
          .pStr "Monitor", .pInt 0, .pStr "Completed", .pStr "DLSTAP202",
          .pTimestampNow, .pTimestampNow, .pStr "CRP FileEvent populator",
          .pStr "CRP FileEvent populator", .pStr "", .pBool true ] ∧
      (insertParams d dft fn fl).length = 14) ∧
    (∀ (env : StoreEnv) (db : List IdentityKey)
       (server dbase tmplPath : String) (dft : Nat) (md fn fl : String)
       (d : PyDate) (tc : String),
      env.connect_fails = false →
      date_fromisoformat md = some d →
      (⟨fn, fl, d, dft⟩ : IdentityKey) ∉ db →
      env.template = some tc →
      env.exec_fails = false →
      (insert_fileevent env db server dbase tmplPath dft md fn fl).events.filterMap
        (fun e => match e with | .insertExec ps => some ps | _ => none)
        = [insertParams d dft fn fl] ∧
      (insert_fileevent env db server dbase tmplPath dft md fn fl).events.filter
        isTemplateReadB = [.templateRead tmplPath]) ∧
    (∀ (env : StoreEnv) (db : List IdentityKey)
       (server dbase tmplPath : String) (dft : Nat) (md fn fl : String),
      (insert_fileevent env db server dbase tmplPath dft md fn fl).ret
        = .ok false →
      (insert_fileevent env db server dbase tmplPath dft md fn fl).events.filter
        isTemplateReadB = []) ∧
    (∀ (env : StoreEnv) (db : List IdentityKey)
       (server dbase tmplPath : String) (dft : Nat) (md fn fl : String)
       (d : PyDate) (tc : String),
      env.connect_fails = false →
      date_fromisoformat md = some d →
      (⟨fn, fl, d, dft⟩ : IdentityKey) ∉ db →
      env.template = some tc →
      env.exec_fails = true →
      (insert_fileevent env db server dbase tmplPath dft md fn fl).ret
        = .error .pyodbcError ∧
      (insert_fileevent env db server dbase tmplPath dft md fn fl).events.filter
        isTemplateReadB = [.templateRead tmplPath]) ∧
    (∀ (rm : RegexEngine) (env : Nat → StoreEnv) (db0 : List IdentityKey)
       (l : List FileRecEntry) (server dbase tmpl : String)
       (pat : Option String) (st : RunState) (oe : Option PyExc),
      populate_fileevents rm env db0 l server dbase tmpl pat = (st, oe) →
      st.inserted ≤ (st.events.filter isTemplateReadB).length ∧
      (st.events.filter isTemplateReadB).length
        ≤ st.inserted + st.failed) := by
  refine ⟨fun d dft fn fl => ⟨rfl, rfl⟩, ?_, ?_, ?_, ?_⟩
  · intro env db server dbase tmplPath dft md fn fl d tc hconn hdate hnot
      htmpl hexec
    rw [insert_insert_eq env db server dbase tmplPath dft md fn fl d tc
      hconn hdate hnot htmpl hexec]
    exact ⟨rfl, rfl⟩
  · intro env db server dbase tmplPath dft md fn fl hret
    exact List.length_eq_zero.mp (insert_template_of_ok env db server dbase
      tmplPath dft md fn fl false hret)
  · intro env db server dbase tmplPath dft md fn fl d tc hconn hdate hnot
      htmpl hexec
    rw [insert_exec_fail_eq env db server dbase tmplPath dft md fn fl d tc
      hconn hdate hnot htmpl hexec]
    exact ⟨rfl, rfl⟩
  · intro rm env db0 l server dbase tmpl pat st oe h
    obtain ⟨_, _, _, _, _, _, hlo, hup⟩ := populate_loop_invariants rm env
      server dbase tmpl pat l.length l 0 ⟨db0, 0, 0, 0, []⟩ st oe h
    constructor
    · simpa using hlo
    · simpa using hup

/-- Witness for C5 (amended): a concrete healthy insert, a concrete
exec-failure (template read, record failed), and the concrete
two-insert run. -/
theorem c5_insert_params_amended_witness :
    (insert_fileevent ⟨false, some "I", false⟩ [] "s" "d" "t" 1 "2024-01-01" "f"
        "/f").events.filterMap
      (fun e => match e with | .insertExec ps => some ps | _ => none)
      = [insertParams ⟨2024, 1, 1⟩ 1 "f" "/f"] ∧
    ((insert_fileevent ⟨false, some "I", true⟩ [] "s" "d" "t" 1 "2024-01-01" "f"
        "/f").ret = .error .pyodbcError ∧
      (insert_fileevent ⟨false, some "I", true⟩ [] "s" "d" "t" 1 "2024-01-01"
        "f" "/f").events.filter isTemplateReadB = [.templateRead "t"]) ∧
    ((populate_fileevents re_match_trade (fun _ => ⟨false, some "I", false⟩) []
        [⟨"/a", "AAA_IRS_a.csv", "2024-01-01", ""⟩,
         ⟨"/b", "BBB_OIS_b.csv", "2024-01-02", ""⟩] "s" "d" "t"
        (some trade_pattern)).1.inserted
      ≤ ((populate_fileevents re_match_trade (fun _ => ⟨false, some "I", false⟩) []
        [⟨"/a", "AAA_IRS_a.csv", "2024-01-01", ""⟩,
         ⟨"/b", "BBB_OIS_b.csv", "2024-01-02", ""⟩] "s" "d" "t"
        (some trade_pattern)).1.events.filter isTemplateReadB).length ∧
      ((populate_fileevents re_match_trade (fun _ => ⟨false, some "I", false⟩) []
        [⟨"/a", "AAA_IRS_a.csv", "2024-01-01", ""⟩,
         ⟨"/b", "BBB_OIS_b.csv", "2024-01-02", ""⟩] "s" "d" "t"
        (some trade_pattern)).1.events.filter isTemplateReadB).length
      ≤ (populate_fileevents re_match_trade (fun _ => ⟨false, some "I", false⟩) []
        [⟨"/a", "AAA_IRS_a.csv", "2024-01-01", ""⟩,
         ⟨"/b", "BBB_OIS_b.csv", "2024-01-02", ""⟩] "s" "d" "t"
        (some trade_pattern)).1.inserted
        + (populate_fileevents re_match_trade (fun _ => ⟨false, some "I", false⟩) []
        [⟨"/a", "AAA_IRS_a.csv", "2024-01-01", ""⟩,
         ⟨"/b", "BBB_OIS_b.csv", "2024-01-02", ""⟩] "s" "d" "t"
        (some trade_pattern)).1.failed) :=
  ⟨(c5_insert_params_amended.2.1 ⟨false, some "I", false⟩ [] "s" "d" "t" 1
      "2024-01-01" "f" "/f" ⟨2024, 1, 1⟩ "I" rfl (by rfl) (by simp) rfl rfl).1,
   c5_insert_params_amended.2.2.2.1 ⟨false, some "I", true⟩ [] "s" "d" "t" 1
      "2024-01-01" "f" "/f" ⟨2024, 1, 1⟩ "I" rfl (by rfl) (by simp) rfl rfl,
   c5_insert_params_amended.2.2.2.2 re_match_trade
      (fun _ => ⟨false, some "I", false⟩) []
      [⟨"/a", "AAA_IRS_a.csv", "2024-01-01", ""⟩,
       ⟨"/b", "BBB_OIS_b.csv", "2024-01-02", ""⟩] "s" "d" "t"
      (some trade_pattern) _ _ rfl⟩

/-! ## Claim C6 — progress reporting -/

/-- Claim C6, counterexample. No progress line is emitted for a
classification-miss record: a one-record run whose record does not
classify produces no progress event at all (the `continue` skips the
status print). -/
theorem c6_counterexample :
    populate_fileevents re_match_trade (fun _ => ⟨false, some "I", false⟩) []
        [⟨"/x", "TRADE_XYZ_1.csv", "2024-01-01", ""⟩] "s" "d" "t"
        (some trade_pattern)
      = (⟨[], 0, 0, 0,
          [.appWarning "Unknown file type for: TRADE_XYZ_1.csv"]⟩, none) ∧
    ((populate_fileevents re_match_trade (fun _ => ⟨false, some "I", false⟩) []
        [⟨"/x", "TRADE_XYZ_1.csv", "2024-01-01", ""⟩] "s" "d" "t"
        (some trade_pattern)).1.events.filter isProgressB).length = 0 := by
  exact ⟨by rfl, by rfl⟩

/-- Claim C6, amended. After every record that classifies, exactly one
progress event is emitted, last in that record's trace, showing the true
cumulative counts (`processed = inserted + skipped + failed`,
`remaining = total - processed`, `failed`) at that moment; a
classification-miss record emits a warning but no progress line and
is never counted as processed. -/
theorem c6_progress_amended :
    (∀ (rm : RegexEngine) (env : Nat → StoreEnv) (server dbase tmpl : String)
       (p : String) (total idx : Nat) (st : RunState) (rec : FileRecEntry)
       (id : Nat),
      get_datafiletype_id_from_filename rm rec.filename p = .ok (some id) →
      ∃ st' mid, populate_step rm env server dbase tmpl (some p) total idx st
          rec = .ok st' ∧
        st'.events = st.events ++ mid ++
          [.progress (st'.inserted + st'.skipped + st'.failed) total
            (total - (st'.inserted + st'.skipped + st'.failed)) st'.failed] ∧
        mid.filter isProgressB = [] ∧
        st'.inserted + st'.skipped + st'.failed
          = st.inserted + st.skipped + st.failed + 1) ∧
    (∀ (rm : RegexEngine) (env : Nat → StoreEnv) (server dbase tmpl : String)
       (p : String) (total idx : Nat) (st : RunState) (rec : FileRecEntry),
      get_datafiletype_id_from_filename rm rec.filename p = .ok none →
      populate_step rm env server dbase tmpl (some p) total idx st rec
        = .ok { st with events := st.events ++
            [.appWarning ("Unknown file type for: " ++ rec.filename)] }) := by
  refine ⟨?_, step_miss_eq⟩
  intro rm env server dbase tmpl p total idx st rec id hcls
  cases hret : (insert_fileevent (env idx) st.db server dbase tmpl id
      rec.formatted_date rec.filename rec.src_full_path).ret with
  | ok b =>
    cases b with
    | true =>
      refine ⟨_, (insert_fileevent (env idx) st.db server dbase tmpl id
          rec.formatted_date rec.filename rec.src_full_path).events,
        step_inserted_eq rm env server dbase tmpl p total idx st rec id
          hcls hret, ?_, ?_, ?_⟩
      · simp
      · exact insert_no_progress (env idx) st.db server dbase tmpl id
          rec.formatted_date rec.filename rec.src_full_path
      · simp
        try omega
    | false =>
      refine ⟨_, (insert_fileevent (env idx) st.db server dbase tmpl id
          rec.formatted_date rec.filename rec.src_full_path).events,
        step_skipped_eq rm env server dbase tmpl p total idx st rec id
          hcls hret, ?_, ?_, ?_⟩
      · simp
      · exact insert_no_progress (env idx) st.db server dbase tmpl id
          rec.formatted_date rec.filename rec.src_full_path
      · simp
        try omega
  | error e =>
    refine ⟨_, (insert_fileevent (env idx) st.db server dbase tmpl id
        rec.formatted_date rec.filename rec.src_full_path).events,
      step_failed_eq rm env server dbase tmpl p total idx st rec id e
        hcls hret, ?_, ?_, ?_⟩
    · simp
    · exact insert_no_progress (env idx) st.db server dbase tmpl id
        rec.formatted_date rec.filename rec.src_full_path
    · simp
      try omega

/-- Witness for C6 (amended): one classified record and one miss record
at concrete inputs. -/
theorem c6_progress_amended_witness :
    (∃ st' mid, populate_step re_match_trade (fun _ => ⟨false, some "I", false⟩)
        "s" "d" "t" (some trade_pattern) 1 0 ⟨[], 0, 0, 0, []⟩
        ⟨"/a", "AAA_IRS_a.csv", "2024-01-01", ""⟩ = .ok st' ∧
      st'.events = [] ++ mid ++
        [.progress (st'.inserted + st'.skipped + st'.failed) 1
          (1 - (st'.inserted + st'.skipped + st'.failed)) st'.failed] ∧
      mid.filter isProgressB = [] ∧
      st'.inserted + st'.skipped + st'.failed = 0 + 0 + 0 + 1) ∧
    populate_step re_match_trade (fun _ => ⟨false, some "I", false⟩) "s" "d" "t"
        (some trade_pattern) 1 0 ⟨[], 0, 0, 0, []⟩
        ⟨"/x", "TRADE_XYZ_1.csv", "2024-01-01", ""⟩
      = .ok ⟨[], 0, 0, 0,
          [.appWarning "Unknown file type for: TRADE_XYZ_1.csv"]⟩ :=
  ⟨c6_progress_amended.1 re_match_trade (fun _ => ⟨false, some "I", false⟩) "s" "d"
      "t" trade_pattern 1 0 ⟨[], 0, 0, 0, []⟩
      ⟨"/a", "AAA_IRS_a.csv", "2024-01-01", ""⟩ 1 (by rfl),
   c6_progress_amended.2 re_match_trade (fun _ => ⟨false, some "I", false⟩) "s" "d"
      "t" trade_pattern 1 0 ⟨[], 0, 0, 0, []⟩
      ⟨"/x", "TRADE_XYZ_1.csv", "2024-01-01", ""⟩ (by rfl)⟩

/-! ## Happy-path and fault step lemmas -/

/-- Unpacking `envOkB`. -/
theorem envOkB_elim (e : StoreEnv) (h : envOkB e = true) :
    e.connect_fails = false ∧ (∃ tc, e.template = some tc) ∧
    e.exec_fails = false := by
  unfold envOkB at h
  refine ⟨?_, ?_, ?_⟩
  · cases hc : e.connect_fails
    · rfl
    · rw [hc] at h; simp at h
  · cases ht : e.template
    · rw [ht] at h; simp at h
    · exact ⟨_, rfl⟩
  · cases hx : e.exec_fails
    · rfl
    · rw [hx] at h; simp at h

/-- Unpacking `classifiesB`. -/
theorem classifiesB_elim (rm : RegexEngine) (p : String) (rec : FileRecEntry)
    (h : classifiesB rm p rec = true) :
    ∃ id, get_datafiletype_id_from_filename rm rec.filename p
      = .ok (some id) := by
  unfold classifiesB at h
  cases hc : get_datafiletype_id_from_filename rm rec.filename p with
  | error e => rw [hc] at h; simp at h
  | ok o =>
    cases o with
    | none => rw [hc] at h; simp at h
    | some id => exact ⟨id, rfl⟩

/-- Unpacking `parsesB`. -/
theorem parsesB_elim (rec : FileRecEntry) (h : parsesB rec = true) :
    ∃ d, date_fromisoformat rec.formatted_date = some d := by
  unfold parsesB at h
  exact Option.isSome_iff_exists.mp h

/-- A record that classifies and parses, published under a healthy store
environment, is counted as inserted or skipped: `failed` is unchanged,
its dedup check appears, and an audit line is written for it. -/
theorem step_no_fault (rm : RegexEngine) (env : Nat → StoreEnv)
    (server dbase tmpl : String) (p : String) (total idx : Nat) (st : RunState)
    (rec : FileRecEntry)
    (henv : envOkB (env idx) = true)
    (hcls : classifiesB rm p rec = true)
    (hpar : parsesB rec = true) :
    ∃ st' t, populate_step rm env server dbase tmpl (some p) total idx st rec
        = .ok st' ∧
      st'.failed = st.failed ∧
      st'.inserted + st'.skipped = st.inserted + st.skipped + 1 ∧
      st'.events = st.events ++ t ∧
      checkKeys t = (recKey rm p rec).toList ∧
      (auditInserted rec ∈ t ∨ auditSkipped rec ∈ t) := by
  obtain ⟨hconn, ⟨tc, htmpl⟩, hexec⟩ := envOkB_elim (env idx) henv
  obtain ⟨id, hid⟩ := classifiesB_elim rm p rec hcls
  obtain ⟨d, hdate⟩ := parsesB_elim rec hpar
  have hkey : recKey rm p rec
      = some ⟨rec.filename, rec.src_full_path, d, id⟩ := by
    unfold recKey
    rw [hid, hdate]
  by_cases hmem : (⟨rec.filename, rec.src_full_path, d, id⟩ : IdentityKey)
      ∈ st.db
  · have heq := insert_skip_eq (env idx) st.db server dbase tmpl id
      rec.formatted_date rec.filename rec.src_full_path d hconn hdate hmem
    have hret : (insert_fileevent (env idx) st.db server dbase tmpl id
        rec.formatted_date rec.filename rec.src_full_path).ret = .ok false := by
      rw [heq]
    refine ⟨_, (insert_fileevent (env idx) st.db server dbase tmpl id
        rec.formatted_date rec.filename rec.src_full_path).events ++
        [.progress (st.inserted + (st.skipped + 1) + st.failed) total
          (total - (st.inserted + (st.skipped + 1) + st.failed)) st.failed],
      step_skipped_eq rm env server dbase tmpl p total idx st rec id hid hret,
      rfl, by simp; omega, by simp, ?_, ?_⟩
    · rw [heq, hkey]
      rfl
    · right
      rw [heq]
      simp [auditSkipped]
  · have heq := insert_insert_eq (env idx) st.db server dbase tmpl id
      rec.formatted_date rec.filename rec.src_full_path d tc hconn hdate
      hmem htmpl hexec
    have hret : (insert_fileevent (env idx) st.db server dbase tmpl id
        rec.formatted_date rec.filename rec.src_full_path).ret = .ok true := by
      rw [heq]
    refine ⟨_, (insert_fileevent (env idx) st.db server dbase tmpl id
        rec.formatted_date rec.filename rec.src_full_path).events ++
        [.progress (st.inserted + 1 + st.skipped + st.failed) total
          (total - (st.inserted + 1 + st.skipped + st.failed)) st.failed],
      step_inserted_eq rm env server dbase tmpl p total idx st rec id hid hret,
      rfl, by simp; omega, by simp, ?_, ?_⟩
    · rw [heq, hkey]
      rfl
    · left
      rw [heq]
      simp [auditInserted]

/-- A record that classifies and parses but whose store connection
raises is counted as failed; the loop continues (the step returns). -/
theorem step_fault (rm : RegexEngine) (env : Nat → StoreEnv)
    (server dbase tmpl : String) (p : String) (total idx : Nat) (st : RunState)
    (rec : FileRecEntry)
    (hfault : (env idx).connect_fails = true)
    (hcls : classifiesB rm p rec = true)
    (hpar : parsesB rec = true) :
    ∃ st' t, populate_step rm env server dbase tmpl (some p) total idx st rec
        = .ok st' ∧
      st'.failed = st.failed + 1 ∧
      st'.inserted = st.inserted ∧ st'.skipped = st.skipped ∧
      st'.db = st.db ∧ st'.events = st.events ++ t := by
  obtain ⟨id, hid⟩ := classifiesB_elim rm p rec hcls
  obtain ⟨d, hdate⟩ := parsesB_elim rec hpar
  have heq := insert_connect_fail_eq (env idx) st.db server dbase tmpl id
    rec.formatted_date rec.filename rec.src_full_path d hfault hdate
  have hret : (insert_fileevent (env idx) st.db server dbase tmpl id
      rec.formatted_date rec.filename rec.src_full_path).ret
      = .error .pyodbcError := by rw [heq]
  refine ⟨_, (insert_fileevent (env idx) st.db server dbase tmpl id
      rec.formatted_date rec.filename rec.src_full_path).events ++
      [.progress (st.inserted + st.skipped + (st.failed + 1)) total
        (total - (st.inserted + st.skipped + (st.failed + 1))) (st.failed + 1)],
    step_failed_eq rm env server dbase tmpl p total idx st rec id .pyodbcError
      hid hret,
    rfl, rfl, rfl, ?_, by simp⟩
  · rw [heq]

/-- Splitting the loop over a concatenated inventory. -/
theorem populate_loop_append (rm : RegexEngine) (env : Nat → StoreEnv)
    (server dbase tmpl : String) (pat : Option String) (total : Nat)
    (l1 l2 : List FileRecEntry) :
    ∀ (idx : Nat) (st : RunState),
      populate_loop rm env server dbase tmpl pat total idx st (l1 ++ l2)
        = (match populate_loop rm env server dbase tmpl pat total idx st l1 with
           | (st1, none) =>
             populate_loop rm env server dbase tmpl pat total
               (idx + l1.length) st1 l2
           | (st1, some e) => (st1, some e)) := by
  induction l1 with
  | nil =>
    intro idx st
    simp [populate_loop]
  | cons rec rest ih =>
    intro idx st
    rw [List.cons_append, populate_loop, populate_loop]
    cases hstep : populate_step rm env server dbase tmpl pat total idx st rec with
    | error e => rfl
    | ok st1 =>
      show populate_loop rm env server dbase tmpl pat total (idx + 1) st1
          (rest ++ l2)
        = (match populate_loop rm env server dbase tmpl pat total (idx + 1)
              st1 rest with
           | (st1, none) =>
             populate_loop rm env server dbase tmpl pat total
               (idx + (rec :: rest).length) st1 l2
           | (st1, some e) => (st1, some e))
      have hlen : idx + (rec :: rest).length = idx + 1 + rest.length := by
        simp
        omega
      rw [hlen, ih (idx + 1) st1]

/-- Over a segment whose records all classify and parse and whose store
environments are healthy, the loop completes, `failed` is unchanged,
every record lands as inserted or skipped, and the dedup checks are
issued in the segment's order. -/
theorem populate_loop_no_fault (rm : RegexEngine) (env : Nat → StoreEnv)
    (server dbase tmpl : String) (p : String) (total : Nat)
    (l : List FileRecEntry) :
    ∀ (idx : Nat) (st : RunState),
      l.all (classifiesB rm p) = true →
      l.all parsesB = true →
      (∀ j, idx ≤ j → j < idx + l.length → envOkB (env j) = true) →
      ∃ st' t,
        populate_loop rm env server dbase tmpl (some p) total idx st l
          = (st', none) ∧
        st'.failed = st.failed ∧
        st'.inserted + st'.skipped = st.inserted + st.skipped + l.length ∧
        st'.events = st.events ++ t ∧
        checkKeys t = l.filterMap (recKey rm p) := by
  induction l with
  | nil =>
    intro idx st _ _ _
    exact ⟨st, [], by rw [populate_loop], rfl, by simp, by simp, rfl⟩
  | cons rec rest ih =>
    intro idx st hcls hpar henv
    rw [List.all_cons] at hcls hpar
    obtain ⟨hc1, hc2⟩ := Bool.and_eq_true_iff.mp hcls
    obtain ⟨hp1, hp2⟩ := Bool.and_eq_true_iff.mp hpar
    have henv0 : envOkB (env idx) = true := by
      refine henv idx (le_refl _) ?_
      simp
    obtain ⟨st1, t1, hstep, hf1, hs1, he1, hk1, _⟩ :=
      step_no_fault rm env server dbase tmpl p total idx st rec henv0 hc1 hp1
    obtain ⟨st', t2, hloop, hf2, hs2, he2, hk2⟩ := ih (idx + 1) st1 hc2 hp2
      (fun j hj1 hj2 => henv j (by omega) (by simp at hj2 ⊢; omega))
    refine ⟨st', t1 ++ t2, ?_, ?_, ?_, ?_, ?_⟩
    · rw [populate_loop, hstep]
      exact hloop
    · rw [hf2, hf1]
    · rw [hs2, hs1]
      simp
      omega
    · rw [he2, he1, List.append_assoc]
    · have hkey : ∃ k, recKey rm p rec = some k := by
        obtain ⟨id, hid⟩ := classifiesB_elim rm p rec hc1
        obtain ⟨d, hdate⟩ := parsesB_elim rec hp1
        exact ⟨_, by unfold recKey; rw [hid, hdate]⟩
      obtain ⟨k, hk⟩ := hkey
      unfold checkKeys at hk1 hk2 ⊢
      rw [List.filterMap_append, hk1, hk2, List.filterMap_cons, hk]
      rfl

/-- One non-raising iteration advances the loop. -/
theorem populate_loop_cons_ok (rm : RegexEngine) (env : Nat → StoreEnv)
    (server dbase tmpl : String) (pat : Option String) (total idx : Nat)
    (st : RunState) (rec : FileRecEntry) (rest : List FileRecEntry)
    (st1 : RunState)
    (h : populate_step rm env server dbase tmpl pat total idx st rec
      = .ok st1) :
    populate_loop rm env server dbase tmpl pat total idx st (rec :: rest)
      = populate_loop rm env server dbase tmpl pat total (idx + 1) st1 rest := by
  conv_lhs => rw [populate_loop]
  rw [h]

/-! ## Claim C3 — partial-failure isolation -/

/-- Claim C3. If the store raises for record N (= `b`, at position
`pre.length + 1`) but the environment is healthy for every other record,
and every record classifies and parses, then the run does not abort, the
result counts exactly one Failed, and both neighbours `a` and `c` are
still published — each leaving an Inserted or Skipped audit line. -/
theorem c3_partial_failure (rm : RegexEngine) (env : Nat → StoreEnv)
    (db0 : List IdentityKey) (server dbase tmpl : String) (p : String)
    (pre post : List FileRecEntry) (a b c : FileRecEntry)
    (hcls : (pre ++ a :: b :: c :: post).all (classifiesB rm p) = true)
    (hpar : (pre ++ a :: b :: c :: post).all parsesB = true)
    (hfault : (env (pre.length + 1)).connect_fails = true)
    (hok : ∀ j, j ≠ pre.length + 1 → envOkB (env j) = true) :
    ∃ st, populate_fileevents rm env db0 (pre ++ a :: b :: c :: post) server
        dbase tmpl (some p) = (st, none) ∧
      st.failed = 1 ∧
      (auditInserted a ∈ st.events ∨ auditSkipped a ∈ st.events) ∧
      (auditInserted c ∈ st.events ∨ auditSkipped c ∈ st.events) := by
  rw [List.all_append] at hcls hpar
  obtain ⟨hclsPre, hclsR⟩ := Bool.and_eq_true_iff.mp hcls
  obtain ⟨hparPre, hparR⟩ := Bool.and_eq_true_iff.mp hpar
  rw [List.all_cons] at hclsR hparR
  obtain ⟨hclsA, hclsR⟩ := Bool.and_eq_true_iff.mp hclsR
  obtain ⟨hparA, hparR⟩ := Bool.and_eq_true_iff.mp hparR
  rw [List.all_cons] at hclsR hparR
  obtain ⟨hclsB, hclsR⟩ := Bool.and_eq_true_iff.mp hclsR
  obtain ⟨hparB, hparR⟩ := Bool.and_eq_true_iff.mp hparR
  rw [List.all_cons] at hclsR hparR
  obtain ⟨hclsC, hclsPost⟩ := Bool.and_eq_true_iff.mp hclsR
  obtain ⟨hparC, hparPost⟩ := Bool.and_eq_true_iff.mp hparR
  set total := (pre ++ a :: b :: c :: post).length with htotal
  set st0 : RunState := ⟨db0, 0, 0, 0, []⟩ with hst0
  obtain ⟨st1, t1, hpre, hf1, _, he1, _⟩ :=
    populate_loop_no_fault rm env server dbase tmpl p total pre 0 st0
      hclsPre hparPre (fun j hj1 hj2 => hok j (by omega))
  have envA : envOkB (env pre.length) = true := hok pre.length (by omega)
  obtain ⟨st2, t2, hstepA, hfA, _, heA, _, hauditA⟩ :=
    step_no_fault rm env server dbase tmpl p total pre.length st1 a
      envA hclsA hparA
  obtain ⟨st3, t3, hstepB, hfB, _, _, _, heB⟩ :=
    step_fault rm env server dbase tmpl p total (pre.length + 1) st2 b
      hfault hclsB hparB
  have envC : envOkB (env (pre.length + 1 + 1)) = true :=
    hok (pre.length + 1 + 1) (by omega)
  obtain ⟨st4, t4, hstepC, hfC, _, heC, _, hauditC⟩ :=
    step_no_fault rm env server dbase tmpl p total (pre.length + 1 + 1) st3 c
      envC hclsC hparC
  obtain ⟨st5, t5, hpost, hfPost, _, hePost, _⟩ :=
    populate_loop_no_fault rm env server dbase tmpl p total post
      (pre.length + 1 + 1 + 1) st4 hclsPost hparPost
      (fun j hj1 hj2 => hok j (by omega))
  have hrun : populate_fileevents rm env db0 (pre ++ a :: b :: c :: post)
      server dbase tmpl (some p) = (st5, none) := by
    show populate_loop rm env server dbase tmpl (some p) total 0 st0
        (pre ++ a :: b :: c :: post) = (st5, none)
    rw [populate_loop_append rm env server dbase tmpl (some p) total pre
      (a :: b :: c :: post) 0 st0, hpre]
    show populate_loop rm env server dbase tmpl (some p) total
        (0 + pre.length) st1 (a :: b :: c :: post) = (st5, none)
    rw [Nat.zero_add,
      populate_loop_cons_ok rm env server dbase tmpl (some p) total
        pre.length st1 a (b :: c :: post) st2 hstepA,
      populate_loop_cons_ok rm env server dbase tmpl (some p) total
        (pre.length + 1) st2 b (c :: post) st3 hstepB,
      populate_loop_cons_ok rm env server dbase tmpl (some p) total
        (pre.length + 1 + 1) st3 c post st4 hstepC,
      hpost]
  have hmono2 : ∀ x, x ∈ st2.events → x ∈ st5.events := by
    intro x hx
    rw [hePost, heC, heB]
    exact List.mem_append_left _ (List.mem_append_left _
      (List.mem_append_left _ hx))
  have hmono4 : ∀ x, x ∈ st4.events → x ∈ st5.events := by
    intro x hx
    rw [hePost]
    exact List.mem_append_left _ hx
  refine ⟨st5, hrun, ?_, ?_, ?_⟩
  · rw [hfPost, hfC, hfB, hfA, hf1]
  · rcases hauditA with h | h
    · exact Or.inl (hmono2 _ (by rw [heA]; exact List.mem_append_right _ h))
    · exact Or.inr (hmono2 _ (by rw [heA]; exact List.mem_append_right _ h))
  · rcases hauditC with h | h
    · exact Or.inl (hmono4 _ (by rw [heC]; exact List.mem_append_right _ h))
    · exact Or.inr (hmono4 _ (by rw [heC]; exact List.mem_append_right _ h))

/-- Witness for C3: a concrete three-record inventory whose middle
record hits a store outage (`connect_fails` at position 1 only). -/
theorem c3_partial_failure_witness :
    ∃ st, populate_fileevents re_match_trade
        (fun j => if j = 1 then (⟨true, some "I", false⟩ : StoreEnv)
                  else ⟨false, some "I", false⟩) []
        ([] ++ (⟨"/a", "AAA_IRS_a.csv", "2024-01-01", ""⟩ : FileRecEntry) ::
          (⟨"/b", "BBB_OIS_b.csv", "2024-01-02", ""⟩ : FileRecEntry) ::
          (⟨"/c", "CCC_BS_c.csv", "2024-01-03", ""⟩ : FileRecEntry) :: [])
        "s" "d" "t" (some trade_pattern) = (st, none) ∧
      st.failed = 1 ∧
      (auditInserted ⟨"/a", "AAA_IRS_a.csv", "2024-01-01", ""⟩ ∈ st.events ∨
       auditSkipped ⟨"/a", "AAA_IRS_a.csv", "2024-01-01", ""⟩ ∈ st.events) ∧
      (auditInserted ⟨"/c", "CCC_BS_c.csv", "2024-01-03", ""⟩ ∈ st.events ∨
       auditSkipped ⟨"/c", "CCC_BS_c.csv", "2024-01-03", ""⟩ ∈ st.events) :=
  c3_partial_failure re_match_trade
    (fun j => if j = 1 then (⟨true, some "I", false⟩ : StoreEnv)
              else ⟨false, some "I", false⟩)
    [] "s" "d" "t" trade_pattern [] []
    ⟨"/a", "AAA_IRS_a.csv", "2024-01-01", ""⟩
    ⟨"/b", "BBB_OIS_b.csv", "2024-01-02", ""⟩
    ⟨"/c", "CCC_BS_c.csv", "2024-01-03", ""⟩
    (by rfl) (by rfl) (by rfl)
    (fun j hj => by
      have hj' : j ≠ 1 := hj
      show envOkB (if j = 1 then (⟨true, some "I", false⟩ : StoreEnv)
        else ⟨false, some "I", false⟩) = true
      rw [if_neg hj']
      rfl)

/-! ## Claim C4 — ordering and outcome accounting -/

/-- Claim C4, counterexample. The three non-success outcomes are not all
distinguishable in the run result: a run whose only record is a
dedup-skip and a run whose only record is a classification miss return
the identical result (`failed = 0`), although the first skipped a
duplicate (skipped = 1) and the second never classified (skipped = 0,
a warning logged instead).  Skip and miss counts are dropped from the
returned result. -/
theorem c4_counterexample :
    populate_fileevents_ret re_match_trade (fun _ => ⟨false, some "I", false⟩)
      [⟨"AAA_IRS_a.csv", "/a", ⟨2024, 1, 1⟩, 1⟩]
      [⟨"/a", "AAA_IRS_a.csv", "2024-01-01", ""⟩] "s" "d" "t"
      (some trade_pattern) = .ok 0 ∧
    populate_fileevents_ret re_match_trade (fun _ => ⟨false, some "I", false⟩)
      [] [⟨"/x", "TRADE_XYZ_1.csv", "2024-01-01", ""⟩] "s" "d" "t"
      (some trade_pattern) = .ok 0 ∧
    (populate_fileevents re_match_trade (fun _ => ⟨false, some "I", false⟩)
      [⟨"AAA_IRS_a.csv", "/a", ⟨2024, 1, 1⟩, 1⟩]
      [⟨"/a", "AAA_IRS_a.csv", "2024-01-01", ""⟩] "s" "d" "t"
      (some trade_pattern)).1.skipped = 1 ∧
    (populate_fileevents re_match_trade (fun _ => ⟨false, some "I", false⟩)
      [] [⟨"/x", "TRADE_XYZ_1.csv", "2024-01-01", ""⟩] "s" "d" "t"
      (some trade_pattern)).1.skipped = 0 := by
  exact ⟨by rfl, by rfl, by rfl, by rfl⟩

/-- Claim C4, amended. The publisher processes records in the inventory's
given order (under a healthy store, the dedup checks appear exactly in
inventory order); per record the three non-success outcomes stay
distinguishable in counters and logs — a miss changes no counter (a
warning is logged), a dedup-skip increments only `skipped` and a store
failure only `failed` — but the value returned to the caller is only
the `failed` count: the skipped and miss tallies are not part of the
returned result. -/
theorem c4_order_and_accounting_amended :
    (∀ (rm : RegexEngine) (env : Nat → StoreEnv) (db0 : List IdentityKey)
       (l : List FileRecEntry) (server dbase tmpl : String) (p : String),
      l.all (classifiesB rm p) = true →
      l.all parsesB = true →
      (∀ j, j < l.length → envOkB (env j) = true) →
      ∃ st, populate_fileevents rm env db0 l server dbase tmpl (some p)
          = (st, none) ∧
        checkKeys st.events = l.filterMap (recKey rm p)) ∧
    (∀ (rm : RegexEngine) (env : Nat → StoreEnv) (server dbase tmpl : String)
       (p : String) (total idx : Nat) (st : RunState) (rec : FileRecEntry)
       (st' : RunState),
      populate_step rm env server dbase tmpl (some p) total idx st rec
        = .ok st' →
      (get_datafiletype_id_from_filename rm rec.filename p = .ok none ∧
        st'.inserted = st.inserted ∧ st'.skipped = st.skipped ∧
        st'.failed = st.failed ∧
        st'.events = st.events ++
          [.appWarning ("Unknown file type for: " ++ rec.filename)]) ∨
      (∃ id, get_datafiletype_id_from_filename rm rec.filename p
          = .ok (some id) ∧
        (((insert_fileevent (env idx) st.db server dbase tmpl id
             rec.formatted_date rec.filename rec.src_full_path).ret
             = .ok true ∧
          st'.inserted = st.inserted + 1 ∧ st'.skipped = st.skipped ∧
          st'.failed = st.failed ∧ auditInserted rec ∈ st'.events) ∨
         ((insert_fileevent (env idx) st.db server dbase tmpl id
             rec.formatted_date rec.filename rec.src_full_path).ret
             = .ok false ∧
          st'.inserted = st.inserted ∧ st'.skipped = st.skipped + 1 ∧
          st'.failed = st.failed ∧ auditSkipped rec ∈ st'.events) ∨
         (∃ e, (insert_fileevent (env idx) st.db server dbase tmpl id
             rec.formatted_date rec.filename rec.src_full_path).ret
             = .error e ∧
          st'.inserted = st.inserted ∧ st'.skipped = st.skipped ∧
          st'.failed = st.failed + 1 ∧
          (st'.events.filter isAuditLineB).length
            = (st.events.filter isAuditLineB).length)))) ∧
    (∀ (rm : RegexEngine) (env : Nat → StoreEnv) (db0 : List IdentityKey)
       (l : List FileRecEntry) (server dbase tmpl : String)
       (pat : Option String) (st : RunState),
      populate_fileevents rm env db0 l server dbase tmpl pat = (st, none) →
      populate_fileevents_ret rm env db0 l server dbase tmpl pat
        = .ok st.failed) := by
  refine ⟨?_, ?_, ?_⟩
  · intro rm env db0 l server dbase tmpl p hcls hpar henv
    obtain ⟨st, t, hloop, _, _, he, hk⟩ :=
      populate_loop_no_fault rm env server dbase tmpl p l.length l 0
        ⟨db0, 0, 0, 0, []⟩ hcls hpar
        (fun j hj1 hj2 => henv j (by simpa using hj2))
    refine ⟨st, hloop, ?_⟩
    rw [he]
    simpa using hk
  · intro rm env server dbase tmpl p total idx st rec st' h
    rcases step_ok_inversion rm env server dbase tmpl p total idx st rec st' h
      with ⟨hcls, rfl⟩ | ⟨id, hcls, ⟨hret, rfl⟩ | ⟨hret, rfl⟩ | ⟨e, hret, rfl⟩⟩
    · exact Or.inl ⟨hcls, rfl, rfl, rfl, rfl⟩
    · refine Or.inr ⟨id, hcls, Or.inl ⟨hret, rfl, rfl, rfl, ?_⟩⟩
      exact List.mem_append_left _ (List.mem_append_right _
        (insert_audit_inserted_mem (env idx) st.db server dbase tmpl id
          rec.formatted_date rec.filename rec.src_full_path hret))
    · refine Or.inr ⟨id, hcls, Or.inr (Or.inl ⟨hret, rfl, rfl, rfl, ?_⟩)⟩
      exact List.mem_append_left _ (List.mem_append_right _
        (insert_audit_skipped_mem (env idx) st.db server dbase tmpl id
          rec.formatted_date rec.filename rec.src_full_path hret))
    · refine Or.inr ⟨id, hcls, Or.inr (Or.inr ⟨e, hret, rfl, rfl, rfl, ?_⟩)⟩
      have ha := insert_audit_of_error (env idx) st.db server dbase tmpl id
        rec.formatted_date rec.filename rec.src_full_path e hret
      simp [List.filter_append, ha, isAuditLineB]
  · intro rm env db0 l server dbase tmpl pat st h
    unfold populate_fileevents_ret
    rw [h]

/-- Concrete identity key for the C4 witness fixtures. -/
def c4Key : IdentityKey := ⟨"AAA_IRS_a.csv", "/a", ⟨2024, 1, 1⟩, 1⟩

/-- Concrete file record for the C4 witness fixtures. -/
def c4Rec : FileRecEntry := ⟨"/a", "AAA_IRS_a.csv", "2024-01-01", ""⟩

/-- Run state before the C4 witness step: the store already holds the
record's identity key, so the step is a dedup-skip. -/
def c4St : RunState := ⟨[c4Key], 0, 0, 0, []⟩

/-- Run state after the C4 witness step: `skipped` incremented and the
check, audit and progress events appended. -/
def c4St2 : RunState :=
  ⟨[c4Key], 0, 1, 0,
   [.connectAttempt (conn_str_of "s" "d"), .checkQuery c4Key,
    .auditLine "AAA_IRS_a.csv,/a,Skipped", .progress 1 1 0 0]⟩

/-- Healthy store environment for the C4 witness fixtures. -/
def c4Env : Nat → StoreEnv := fun _ => ⟨false, some "I", false⟩

/-- Witness for C4 (amended): in-order dedup checks of a concrete
two-record happy-path run; the per-record outcome accounting at a
concrete dedup-skip step (the skip disjunct holds: only `skipped`
moves and the Skipped audit line is in the trace); and the returned
result of a concrete run. -/
theorem c4_order_and_accounting_amended_witness :
    (∃ st, populate_fileevents re_match_trade c4Env []
        [⟨"/a", "AAA_IRS_a.csv", "2024-01-01", ""⟩,
         ⟨"/b", "BBB_OIS_b.csv", "2024-01-02", ""⟩] "s" "d" "t"
        (some trade_pattern) = (st, none) ∧
      checkKeys st.events =
        [⟨"/a", "AAA_IRS_a.csv", "2024-01-01", ""⟩,
         ⟨"/b", "BBB_OIS_b.csv", "2024-01-02", ""⟩].filterMap
          (recKey re_match_trade trade_pattern)) ∧
    ((get_datafiletype_id_from_filename re_match_trade c4Rec.filename
          trade_pattern = .ok none ∧
      c4St2.inserted = c4St.inserted ∧ c4St2.skipped = c4St.skipped ∧
      c4St2.failed = c4St.failed ∧
      c4St2.events = c4St.events ++
        [.appWarning ("Unknown file type for: " ++ c4Rec.filename)]) ∨
     (∃ id, get_datafiletype_id_from_filename re_match_trade c4Rec.filename
          trade_pattern = .ok (some id) ∧
       (((insert_fileevent (c4Env 0) c4St.db "s" "d" "t" id
            c4Rec.formatted_date c4Rec.filename c4Rec.src_full_path).ret
            = .ok true ∧
         c4St2.inserted = c4St.inserted + 1 ∧ c4St2.skipped = c4St.skipped ∧
         c4St2.failed = c4St.failed ∧ auditInserted c4Rec ∈ c4St2.events) ∨
        ((insert_fileevent (c4Env 0) c4St.db "s" "d" "t" id
            c4Rec.formatted_date c4Rec.filename c4Rec.src_full_path).ret
            = .ok false ∧
         c4St2.inserted = c4St.inserted ∧ c4St2.skipped = c4St.skipped + 1 ∧
         c4St2.failed = c4St.failed ∧ auditSkipped c4Rec ∈ c4St2.events) ∨
        (∃ e, (insert_fileevent (c4Env 0) c4St.db "s" "d" "t" id
            c4Rec.formatted_date c4Rec.filename c4Rec.src_full_path).ret
            = .error e ∧
         c4St2.inserted = c4St.inserted ∧ c4St2.skipped = c4St.skipped ∧
         c4St2.failed = c4St.failed + 1 ∧
         (c4St2.events.filter isAuditLineB).length
           = (c4St.events.filter isAuditLineB).length)))) ∧
    (populate_fileevents_ret re_match_trade c4Env
        [] [⟨"/x", "TRADE_XYZ_1.csv", "2024-01-01", ""⟩] "s" "d" "t"
        (some trade_pattern)
      = .ok (populate_fileevents re_match_trade c4Env []
          [⟨"/x", "TRADE_XYZ_1.csv", "2024-01-01", ""⟩] "s" "d" "t"
          (some trade_pattern)).1.failed) :=
  ⟨c4_order_and_accounting_amended.1 re_match_trade c4Env []
      [⟨"/a", "AAA_IRS_a.csv", "2024-01-01", ""⟩,
       ⟨"/b", "BBB_OIS_b.csv", "2024-01-02", ""⟩] "s" "d" "t" trade_pattern
      (by rfl) (by rfl) (fun j hj => by rfl),
   c4_order_and_accounting_amended.2.1 re_match_trade c4Env "s" "d" "t"
      trade_pattern 1 0 c4St c4Rec c4St2 (by rfl),
   c4_order_and_accounting_amended.2.2 re_match_trade c4Env []
      [⟨"/x", "TRADE_XYZ_1.csv", "2024-01-01", ""⟩] "s" "d" "t"
      (some trade_pattern) _ rfl⟩

/-! ## Run-abort classification (for C8) -/

/-- The classifier raises only IndexError. -/
theorem classify_error_is_index (rm : RegexEngine) (f p : String) (e : PyExc)
    (h : get_datafiletype_id_from_filename rm f p = .error e) :
    e = .indexError := by
  rcases get_datafiletype_id_cases rm f p with ⟨r, hr⟩ | ⟨m, _, _, heq⟩
  · rw [hr] at h
    exact Except.noConfusion h
  · rw [heq] at h
    injection h with h1
    exact h1.symm

/-- A raising loop iteration raises TypeError (no pattern configured)
or IndexError (classifier). -/
theorem populate_step_error (rm : RegexEngine) (env : Nat → StoreEnv)
    (server dbase tmpl : String) (pat : Option String) (total idx : Nat)
    (st : RunState) (rec : FileRecEntry) (e : PyExc)
    (h : populate_step rm env server dbase tmpl pat total idx st rec
      = .error e) :
    (pat = none ∧ e = .typeError) ∨ e = .indexError := by
  cases pat with
  | none =>
    rw [step_pattern_none_eq] at h
    injection h with h1
    exact Or.inl ⟨rfl, h1.symm⟩
  | some p =>
    cases hcls : get_datafiletype_id_from_filename rm rec.filename p with
    | error e' =>
      rw [step_classify_error_eq rm env server dbase tmpl p total idx st rec
        e' hcls] at h
      injection h with h1
      exact Or.inr (h1 ▸ classify_error_is_index rm rec.filename p e' hcls)
    | ok o =>
      cases o with
      | none =>
        rw [step_miss_eq rm env server dbase tmpl p total idx st rec hcls] at h
        exact Except.noConfusion h
      | some id =>
        cases hret : (insert_fileevent (env idx) st.db server dbase tmpl id
            rec.formatted_date rec.filename rec.src_full_path).ret with
        | ok b =>
          cases b with
          | true =>
            rw [step_inserted_eq rm env server dbase tmpl p total idx st rec
              id hcls hret] at h
            exact Except.noConfusion h
          | false =>
            rw [step_skipped_eq rm env server dbase tmpl p total idx st rec
              id hcls hret] at h
            exact Except.noConfusion h
        | error e' =>
          rw [step_failed_eq rm env server dbase tmpl p total idx st rec id e'
            hcls hret] at h
          exact Except.noConfusion h

/-- An aborted loop either raised TypeError at its very first record
(no pattern configured — the state is untouched) or raised IndexError. -/
theorem populate_loop_error (rm : RegexEngine) (env : Nat → StoreEnv)
    (server dbase tmpl : String) (pat : Option String) (total : Nat)
    (l : List FileRecEntry) :
    ∀ (idx : Nat) (st st' : RunState) (e : PyExc),
      populate_loop rm env server dbase tmpl pat total idx st l
        = (st', some e) →
      (pat = none ∧ e = .typeError ∧ st' = st) ∨ e = .indexError := by
  induction l with
  | nil =>
    intro idx st st' e h
    rw [populate_loop] at h
    cases h
  | cons rec rest ih =>
    intro idx st st' e h
    rw [populate_loop] at h
    cases hstep : populate_step rm env server dbase tmpl pat total idx st rec with
    | error e' =>
      rw [hstep] at h
      cases h
      rcases populate_step_error rm env server dbase tmpl pat total idx st rec
        _ hstep with ⟨h1, h2⟩ | h1
      · exact Or.inl ⟨h1, h2, rfl⟩
      · exact Or.inr h1
    | ok st1 =>
      rw [hstep] at h
      rcases ih (idx + 1) st1 st' e h with ⟨h1, h2, _⟩ | h1
      · subst h1
        rw [step_pattern_none_eq] at hstep
        exact Except.noConfusion hstep
      · exact Or.inr h1

/-- An aborted `populate_fileevents` raised TypeError before emitting
anything (missing pattern, first record) or raised IndexError. -/
theorem populate_fileevents_error (rm : RegexEngine) (env : Nat → StoreEnv)
    (db0 : List IdentityKey) (l : List FileRecEntry)
    (server dbase tmpl : String) (pat : Option String) (st : RunState)
    (e : PyExc)
    (h : populate_fileevents rm env db0 l server dbase tmpl pat
      = (st, some e)) :
    (e = .typeError ∧ st.events = []) ∨ e = .indexError := by
  rcases populate_loop_error rm env server dbase tmpl pat l.length l 0
    ⟨db0, 0, 0, 0, []⟩ st e h with ⟨_, h2, h3⟩ | h1
  · subst h3
    exact Or.inl ⟨h2, rfl⟩
  · exact Or.inr h1

/-- A run of `main` that completes normally found all the required
global configuration keys. -/
theorem py_main_ok_required (config : List (String × YamlVal)) (arg : String)
    (cacheEnv : FileCacheEnv) (store : Nat → StoreEnv) (rm : RegexEngine)
    (db0 : List IdentityKey)
    (h : (py_main config arg cacheEnv store rm db0).ret = .ok ()) :
    (cfgGet config "USE_CACHED").isSome = true ∧
    (cfgGet config "CACHE_FILE_FOLDER").isSome = true ∧
    (cfgGet config "SQL_SERVER").isSome = true ∧
    (cfgGet config "SQL_DATABASE").isSome = true ∧
    (cfgGet config "SQL_INSERT_TEMPLATE_FILE_PATH").isSome = true := by
  simp only [py_main] at h
  repeat' split at h
  all_goals simp_all

/-- Trace classification for `main`: either the trace contains no store
action at all, or the run completed normally, or it died of the
classifier's IndexError. -/
theorem py_main_trace_classification (config : List (String × YamlVal))
    (arg : String) (cacheEnv : FileCacheEnv) (store : Nat → StoreEnv)
    (rm : RegexEngine) (db0 : List IdentityKey) :
    ((py_main config arg cacheEnv store rm db0).events.all
       (fun ev => !isStoreActionB ev) = true) ∨
    ((py_main config arg cacheEnv store rm db0).ret = .ok ()) ∨
    ((py_main config arg cacheEnv store rm db0).ret = .error .indexError) := by
  suffices H : ∀ res : MainResult,
      py_main config arg cacheEnv store rm db0 = res →
      (res.events.all (fun ev => !isStoreActionB ev) = true) ∨
      (res.ret = .ok ()) ∨ (res.ret = .error .indexError) by
    exact H _ rfl
  intro res hres
  simp only [py_main] at hres
  repeat' split at hres
  all_goals subst hres
  all_goals first
    | (left
       simp [isStoreActionB]
       done)
    | (right
       left
       rfl)
    | (rcases populate_fileevents_error _ _ _ _ _ _ _ _ _ _ (by assumption)
        with ⟨h2, h3⟩ | h2
       · left
         rw [h3]
         simp [isStoreActionB]
       · right
         right
         rw [h2])

/-! ## Claim C8 — missing configuration keys -/

/-- Claim C8, counterexample. With `SQL_SERVER` absent (all other keys
present), the run aborts with a KeyError — but only after the config
file was read and the cache was built and saved: filesystem I/O is
performed before the abort, refuting "aborting before any I/O is
performed".  (No store action happens, as the trace shows.) -/
theorem c8_counterexample :
    py_main [("SOURCE_LOCATION", .yStr "/data"), ("USE_CACHED", .yBool false),
        ("CACHE_FILE_FOLDER", .yStr "/cache")] "ClearedPositions"
      ⟨none, []⟩ (fun _ => ⟨false, none, false⟩) re_match_trade []
      = ⟨.error .keyError,
          [.mLogInit, .mConfigRead, .mCacheBuild, .mCacheSave]⟩ ∧
    MainEvent.mCacheBuild
      ∈ (py_main [("SOURCE_LOCATION", .yStr "/data"),
          ("USE_CACHED", .yBool false),
          ("CACHE_FILE_FOLDER", .yStr "/cache")] "ClearedPositions"
        ⟨none, []⟩ (fun _ => ⟨false, none, false⟩) re_match_trade []).events := by
  exact ⟨by rfl, by decide⟩

/-- Claim C8, amended. If a required global configuration key
(`USE_CACHED`, `CACHE_FILE_FOLDER`, `SQL_SERVER`, `SQL_DATABASE`,
`SQL_INSERT_TEMPLATE_FILE_PATH`) is absent, the run fails fatally with
an exception, and any such KeyError/TypeError abort issues nothing
against the store — no connection, existence check, insert or commit —
though it happens only after logging setup, the config-file read and
(for the keys read after the cache step) the cache build/save I/O. -/
theorem c8_config_missing_amended :
    (∀ (config : List (String × YamlVal)) (arg : String)
       (cacheEnv : FileCacheEnv) (store : Nat → StoreEnv) (rm : RegexEngine)
       (db0 : List IdentityKey) (k : String),
      k ∈ requiredGlobalKeys → cfgGet config k = none →
      ∃ e, (py_main config arg cacheEnv store rm db0).ret = .error e) ∧
    (∀ (config : List (String × YamlVal)) (arg : String)
       (cacheEnv : FileCacheEnv) (store : Nat → StoreEnv) (rm : RegexEngine)
       (db0 : List IdentityKey) (e : PyExc),
      (py_main config arg cacheEnv store rm db0).ret = .error e →
      (e = .keyError ∨ e = .typeError) →
      (py_main config arg cacheEnv store rm db0).events.all
        (fun ev => !isStoreActionB ev) = true) := by
  constructor
  · intro config arg cacheEnv store rm db0 k hk hnone
    cases hret : (py_main config arg cacheEnv store rm db0).ret with
    | ok u =>
      cases u
      obtain ⟨h1, h2, h3, h4, h5⟩ :=
        py_main_ok_required config arg cacheEnv store rm db0 hret
      simp [requiredGlobalKeys] at hk
      rcases hk with rfl | rfl | rfl | rfl | rfl <;> simp_all
    | error e => exact ⟨e, rfl⟩
  · intro config arg cacheEnv store rm db0 e h he
    rcases py_main_trace_classification config arg cacheEnv store rm db0 with
      ht | ht | ht
    · exact ht
    · rw [ht] at h
      exact Except.noConfusion h
    · rw [ht] at h
      have hix : PyExc.indexError = e := by injection h
      rcases he with rfl | rfl <;> simp at hix

/-- Witness for C8 (amended): the concrete configuration missing
`SQL_SERVER`. -/
theorem c8_config_missing_amended_witness :
    (∃ e, (py_main [("SOURCE_LOCATION", .yStr "/data"),
        ("USE_CACHED", .yBool false), ("CACHE_FILE_FOLDER", .yStr "/cache")]
        "ClearedPositions" ⟨none, []⟩ (fun _ => ⟨false, none, false⟩)
        re_match_trade []).ret = .error e) ∧
    (py_main [("SOURCE_LOCATION", .yStr "/data"),
        ("USE_CACHED", .yBool false), ("CACHE_FILE_FOLDER", .yStr "/cache")]
        "ClearedPositions" ⟨none, []⟩ (fun _ => ⟨false, none, false⟩)
        re_match_trade []).events.all (fun ev => !isStoreActionB ev) = true :=
  ⟨c8_config_missing_amended.1 _ "ClearedPositions" ⟨none, []⟩
      (fun _ => ⟨false, none, false⟩) re_match_trade [] "SQL_SERVER"
      (by decide) (by rfl),
   c8_config_missing_amended.2 _ "ClearedPositions" ⟨none, []⟩
      (fun _ => ⟨false, none, false⟩) re_match_trade [] .keyError (by rfl)
      (Or.inl rfl)⟩
